import Mathlib

/-!
SEMP client (`internal/semp/client.go`): envelope parsers, request loop,
retrying transport and pagination walker

A shallow embedding of the Go functions `parseResponseAsObject`,
`Client.doRequest`, `retryableTransport.RoundTrip`, `parseResponseForGenerator`,
`Client.RequestWithoutBodyForGenerator`, `NewClient` with its options and
`Client.RequestWithBody`, and the properties of them that the specification
states.

Conventions of the embedding

* Go `string` and `[]byte` values are Lean `String`s: the code only
  concatenates them, compares them and prints them with `%v` / `%s`.
* A Go result pair `(value, error)` is `GoResult.ret value err`, both
  components optional (`none` is Go's `nil`); a run-time panic (a failed
  single-value type assertion, an index out of range) is `GoResult.panic`.
* A Go slice is the list of its elements, so a nil slice and an empty slice
  are both `[]`: the accumulator of the collection functions may be nil, and
  `append` hands a nil slice back when the accumulator is nil and the page adds
  nothing, which is `some []` here.  Only a result written `nil` in the code is
  `none`.
* Library calls whose code is outside the repository (`json.Unmarshal`,
  `http.Client.Do`, the wrapped round-tripper, base64 of `SetBasicAuth`, the
  printing of numbers by `fmt`, the checks of `http.NewRequestWithContext`) are
  parameters.
* The package-level variables are explicit state: `firstRequest` in `World`,
  and `http.DefaultClient`, to which every `Client` points, as an `HttpClient`
  value handed to `NewClient` and handed back by it.
* The walk over the pages of a collection need not end; it takes a bound on the
  number of pages (`fuel`) and hands back `none` when the bound is reached.
* Logging (`tflog`, `dumpData`, `print`) has no effect on control flow or
  results and is left out.
-/

namespace Semp

/-! ## Go values -/

/-- The three package-level error variables of `client.go` (lines 35-39). -/
inductive Sentinel where
  | resourceNotFound
  | badRequest
  | apiUnreachable
  deriving DecidableEq, Repr

/-- Go `error` values: a package-level variable made by `errors.New`, a value
made by `fmt.Errorf` without `%w`, a value made by `fmt.Errorf` whose last verb
is `%w` (it wraps `inner`), and an error handed back by the HTTP library. -/
inductive GoError where
  | sentinel (s : Sentinel)
  | errorf (msg : String)
  | wrapf (msg : String) (inner : GoError)
  | external (msg : String)
  deriving DecidableEq, Repr

/-- The text of `errors.New(...)` for each package-level error. -/
def Sentinel.text : Sentinel → String
  | .resourceNotFound => "Resource not found"
  | .badRequest => "Bad request"
  | .apiUnreachable => "SEMP API unreachable"

def ErrResourceNotFound : GoError := .sentinel .resourceNotFound

def ErrBadRequest : GoError := .sentinel .badRequest

def ErrAPIUnreachable : GoError := .sentinel .apiUnreachable

/-- The method `Error()`: for `fmt.Errorf` values the formatted text, in which
the `%w` operand has already been printed. -/
def GoError.Error : GoError → String
  | .sentinel s => s.text
  | .errorf msg => msg
  | .wrapf msg _ => msg
  | .external msg => msg

/-- The function `errors.Is(err, target)` for a package-level `target`: `err`
is the target itself or wraps it, directly or through a chain of `%w`. -/
def errorsIs : GoError → Sentinel → Bool
  | .sentinel s, t => decide (s = t)
  | .errorf _, _ => false
  | .wrapf _ inner, t => errorsIs inner t
  | .external _, _ => false

/-- A substring test on Go strings: `part` occurs in `whole`. -/
def Contains (whole part : String) : Prop :=
  part.data <:+: whole.data

/-- Decoded JSON, as `json.Unmarshal` stores it in an `any`: `nil`, `bool`,
`float64`, `string`, `[]interface{}` and `map[string]interface{}`.  A `float64`
obtained from a JSON number is finite, so it is a rational number here; a map is
an association list read with `List.lookup`. -/
inductive JVal where
  | null
  | bool (b : Bool)
  | num (x : ℚ)
  | str (s : String)
  | arr (xs : List JVal)
  | obj (kv : List (String × JVal))

/-- The Go type `map[string]any`. -/
abbrev JObj := List (String × JVal)

/-- The two-value type assertion `v, _ = x.(map[string]any)`: the map when `x`
holds one, otherwise the nil map, which reads as empty. -/
def JVal.asMapOrNil : JVal → JObj
  | .obj kv => kv
  | _ => []

/-- What a Go function with results `(T, error)` does: it returns a pair, each
half possibly `nil`, or it panics. -/
inductive GoResult (α : Type) where
  | ret (val : Option α) (err : Option GoError)
  | panic

/-- The parts of `*http.Request` the client reads and writes: the method, the
printed form of `request.URL`, and the header (one value per name, as written
by `Header.Set`). -/
structure Request where
  method : String
  url : String
  header : List (String × String)

/-! ## The envelope parser -/

/-- The error of line 287 (and of line 321). -/
def parseBodyErr (request : Request) (dataResponse : String) : GoError :=
  .errorf ("could not parse response body from " ++ request.method ++ " to " ++ request.url
    ++ ", response body was:\n" ++ dataResponse)

/-- The error of line 308, which wraps `ErrResourceNotFound` with `%w`. -/
def notFoundErr (request : Request) (description status : String) : GoError :=
  .wrapf ("request failed from " ++ request.method ++ " to " ++ request.url ++ ", "
    ++ description ++ ", " ++ status ++ ", " ++ ErrResourceNotFound.Error) ErrResourceNotFound

/-- The error of line 311. -/
def requestFailedErr (request : Request) (description status : String) : GoError :=
  .errorf ("request failed for " ++ request.url ++ " using " ++ request.method ++ ", "
    ++ description ++ ", " ++ status)

/-- The error of line 314. -/
def parseDetailsErr (request : Request) (dataResponse : String) : GoError :=
  .errorf ("could not parse response details from " ++ request.method ++ " to " ++ request.url
    ++ ", response body was:\n" ++ dataResponse)

/-- Go's `parseResponseAsObject` (lines 283-315).  The parameter `unmarshal`
is `json.Unmarshal` into a fresh `map[string]any`: `none` when it reports an
error, otherwise the decoded top-level map. -/
def parseResponseAsObject (unmarshal : String → Option JObj) (request : Request)
    (dataResponse : String) : GoResult JObj :=
  match unmarshal dataResponse with
  | none =>
    .ret none (some (parseBodyErr request dataResponse))
  | some data =>
    match data.lookup "data" with
    | some rawData =>
      -- `data, _ = rawData.(map[string]any); return data, nil`
      match rawData with
      | .obj kv => .ret (some kv) none
      | _ => .ret none none
    | none =>
      match data.lookup "meta" with
      | some rawMeta =>
        let meta := rawMeta.asMapOrNil
        -- `data["responseCode"].(float64)`
        match meta.lookup "responseCode" with
        | some (.num code) =>
          if code = 200 then .ret none none
          else
            -- `data["error"].(map[string]interface{})["description"].(string)`
            match meta.lookup "error" with
            | some (.obj errObj) =>
              match errObj.lookup "description" with
              | some (.str description) =>
                match errObj.lookup "status" with
                | some (.str status) =>
                  if status = "NOT_FOUND" then
                    .ret none (some (notFoundErr request description status))
                  else
                    .ret none (some (requestFailedErr request description status))
                | _ => .panic
              | _ => .panic
            | _ => .panic
        | _ => .panic
      | none =>
        .ret none (some (parseDetailsErr request dataResponse))

/-! ## The request loop -/

/-- The type `time.Duration` is an `int64` count of nanoseconds; the product
`retryWait * 2` wraps around in two's complement. -/
def wrapInt64 (x : Int) : Int :=
  (x + 2 ^ 63) % 2 ^ 64 - 2 ^ 63

/-- The receive-only channel `rateLimiter` of a client: the channel of a
ticker with the given period (a receive blocks until the next tick) or a closed
channel (a receive never blocks). -/
inductive RateLimiter where
  | ticker (period : Int)
  | closed
  deriving DecidableEq, Repr

/-- The fields of the struct `Client` that `doRequest` and the request
functions read (lines 51-62).  The field `retries` is a Go `uint`, taken as 64
bits wide; the durations are `int64` nanoseconds. -/
structure Client where
  url : String
  username : String
  password : String
  bearerToken : String
  retries : Nat
  retryMinInterval : Int
  retryMaxInterval : Int
  requestMinInterval : Int
  rateLimiter : RateLimiter

/-- The parts of `*http.Response` that `doRequest` reads.  `body` is what
`io.ReadAll(response.Body)` hands back (its error is discarded by the code) and
`readErr` tells whether the body stream ended in an error instead of EOF, which
a later read of the same stream reports again. -/
structure Response where
  statusCode : Nat
  status : String
  body : String
  readErr : Bool

/-- The state of `response.Body` after `io.ReadAll`: nothing is left to read. -/
def Response.afterReadAll (r : Response) : Response :=
  { r with body := "" }

/-- The outcome of one `c.Do(request)`: an error (a value of the HTTP library,
with its text) or a response. -/
inductive Exchange where
  | fail (msg : String)
  | answer (resp : Response)

/-- What `doRequest` does to the outside, in order. -/
inductive Effect where
  | gate
  | send (req : Request)
  | sleep (d : Int)

/-- The process state the client functions share: the package-level variable
`firstRequest` (line 43) and the number of HTTP exchanges made so far, which
selects the next outcome of the network. -/
structure World where
  firstRequest : Bool
  calls : Nat

/-- The method `Header.Set`: the one value stored under `key` becomes `value`. -/
def Request.setHeader (r : Request) (key value : String) : Request :=
  { r with header := (key, value) :: r.header.filter (fun kv => kv.1 ≠ key) }

/-- The method `SetBasicAuth`; `base64` is the encoding of the standard library. -/
def Request.SetBasicAuth (base64 : String → String) (r : Request) (username password : String) :
    Request :=
  r.setHeader "Authorization" ("Basic " ++ base64 (username ++ ":" ++ password))

/-- How the labelled loop of `doRequest` ends: a `return` inside the loop body,
or the loop is left (by `break loop` or because `attemptsRemaining` reached 0)
with the variables `response` and `err`. -/
inductive LoopExit where
  | returned (err : GoError)
  | left (response : Option Response) (err : Option GoError)

/-- The text of the error of the `default` case (line 258). -/
def unexpectedStatusMsg (request : Request) (resp : Response) : String :=
  "unexpected status " ++ toString resp.statusCode ++ " (" ++ resp.status ++ ") during "
    ++ request.method ++ " to " ++ request.url ++ ", body:\n" ++ resp.body

/-- The text of the errors of lines 274 and 277; `rawBody` is what the read of
line 272 handed back. -/
def couldNotPerformMsg (request : Request) (resp : Response) (rawBody : String) : String :=
  "could not perform request: status " ++ toString resp.statusCode ++ " (" ++ resp.status
    ++ ") during " ++ request.method ++ " to " ++ request.url ++ ", response body:\n" ++ rawBody

/-- The update of `retryWait` after a wait (lines 263-266). -/
def nextRetryWait (c : Client) (retryWait : Int) : Int :=
  let doubled := wrapInt64 (retryWait * 2)
  if doubled > c.retryMaxInterval then c.retryMaxInterval else doubled

/-- The loop `for attemptsRemaining != 0` of `doRequest` (lines 240-268).
`net i req` is the outcome of the exchange number `i` of the process when `req`
is sent; `calls` is the number of exchanges made before this iteration. -/
def retryLoop (c : Client) (net : Nat → Request → Exchange) (request : Request) :
    (attemptsRemaining : Nat) → (retryWait : Int) → (response : Option Response) →
    (err : Option GoError) → (calls : Nat) → LoopExit × List Effect × Nat
  | 0, _, response, err, calls => (.left response err, [], calls)
  | attemptsRemaining + 1, retryWait, _, _, calls =>
    match net calls request with
    | .fail msg =>
      -- `response = nil`, then the wait of lines 261-267
      let rest := retryLoop c net request attemptsRemaining
        (nextRetryWait c retryWait) none (some (.external msg)) (calls + 1)
      (rest.1, .send request :: .sleep retryWait :: rest.2.1, rest.2.2)
    | .answer resp =>
      if resp.statusCode = 200 then (.left (some resp) none, [.send request], calls + 1)
      else if resp.statusCode = 400 then (.left (some resp) none, [.send request], calls + 1)
      else if resp.statusCode = 429 then
        -- the body is read and dropped, then the wait of lines 261-267
        let rest := retryLoop c net request attemptsRemaining
          (nextRetryWait c retryWait) (some resp.afterReadAll) none (calls + 1)
        (rest.1, .send request :: .sleep retryWait :: rest.2.1, rest.2.2)
      else
        (.returned (.errorf (unexpectedStatusMsg request resp)), [.send request], calls + 1)

/-- The text of the configuration error of line 228. -/
def noCredentialsMsg : String :=
  "either username or bearer token must be provided to access the broker"

/-- The header and credential steps of `doRequest` (lines 218-229): the
request as it is handed to `c.Do`, or `none` when the function returns the
configuration error instead. -/
def prepare (base64 : String → String) (c : Client) (request : Request) : Option Request :=
  let request1 := if request.method ≠ "GET" then
    request.setHeader "Content-Type" "application/json" else request
  -- Prefer OAuth even if Basic Auth credentials provided
  if c.bearerToken ≠ "" then
    some (request1.setHeader "Authorization" ("Bearer " ++ c.bearerToken))
  else if c.username ≠ "" then
    some (request1.SetBasicAuth base64 c.username c.password)
  else none

/-- The end of `doRequest` (lines 269-280), from the variables the loop left. -/
def finish (request : Request) : LoopExit → GoResult String
  | .returned e => .ret none (some e)
  | .left none err => .ret none err
  | .left (some response) _ =>
    let rawBody := response.body
    if response.statusCode ≠ 200 ∧ response.statusCode ≠ 400 then
      .ret none (some (.errorf (couldNotPerformMsg request response rawBody)))
    else if response.readErr then
      .ret none (some (.errorf (couldNotPerformMsg request response rawBody)))
    else .ret (some rawBody) none

/-- Go's `Client.doRequest` (lines 210-281): the result, the effects in order,
and the process state afterwards. -/
def doRequest (base64 : String → String) (net : Nat → Request → Exchange) (c : Client)
    (request : Request) (w : World) : GoResult String × List Effect × World :=
  -- lines 211-217: wait on the pacing gate unless `firstRequest` is set
  let gateEffects : List Effect := if w.firstRequest then [] else [.gate]
  match prepare base64 c request with
  | none =>
    (.ret none (some (.errorf noCredentialsMsg)), gateEffects, { w with firstRequest := false })
  | some request2 =>
    -- `attemptsRemaining := c.retries + 1` in `uint` arithmetic
    let run := retryLoop c net request2 ((c.retries + 1) % 2 ^ 64) c.retryMinInterval none none
      w.calls
    (finish request2 run.1, gateEffects ++ run.2.1, { firstRequest := false, calls := run.2.2 })

/-- The requests handed to `c.Do`, in order. -/
def sends : List Effect → List Request
  | [] => []
  | .send r :: es => r :: sends es
  | _ :: es => sends es

/-- The durations passed to `time.Sleep`, in order. -/
def sleeps : List Effect → List Int
  | [] => []
  | .sleep d :: es => d :: sleeps es
  | _ :: es => sleeps es

/-- The number of receives from `c.rateLimiter` (line 213). -/
def gateWaits : List Effect → Nat
  | [] => 0
  | .gate :: es => gateWaits es + 1
  | _ :: es => gateWaits es

/-- The value stored in a header under `key`, as `Header.Values` lists it. -/
def Request.headerValues (r : Request) (key : String) : List String :=
  (r.header.filter (fun kv => kv.1 = key)).map Prod.snd

/-! ## The retrying transport -/

/-- The constant `RetryCount` (line 49). -/
def RetryCount : Nat := 6

/-- Go's `backoff` (lines 96-98), `time.Duration(math.Pow(2, float64(retries)))
* time.Second`, in nanoseconds.  For `0 ≤ retries < 63` the power of two is an
exact `float64` and its conversion to `int64` is exact; the product with
`time.Second` is an `int64` product.  The transport calls it with
`retries < RetryCount` only. -/
def backoff (retries : Nat) : Int :=
  wrapInt64 (2 ^ retries * 1000000000)

/-- Go's `shouldRetry` (lines 100-112) on the pair `(resp, err)` that the
wrapped round-tripper handed back. -/
def shouldRetry : Exchange → Bool
  | .fail _ => true
  | .answer resp => resp.statusCode = 502 || resp.statusCode = 503 || resp.statusCode = 504

/-- The loop of `RoundTrip` (lines 133-154).  `transport i req` is the outcome
of the call number `i` of the wrapped round-tripper, the first call being number
0, so the retry made while the counter is `retries` is call number
`retries + 1`.  `fuel` bounds the number of iterations; `RoundTrip` passes
`RetryCount`, which the test `retries < RetryCount` never lets run out. -/
def roundTripLoop (transport : Nat → Request → Exchange) (req : Request) :
    (fuel : Nat) → (retries : Nat) → (last : Exchange) → Exchange × List Effect
  | 0, _, last => (last, [])
  | fuel + 1, retries, last =>
    if shouldRetry last ∧ retries < RetryCount then
      -- `time.Sleep(backoff(retries))`, then the retry and `retries++`
      let rest := roundTripLoop transport req fuel (retries + 1) (transport (retries + 1) req)
      (rest.1, .sleep (backoff retries) :: .send req :: rest.2)
    else (last, [])

/-- Go's `retryableTransport.RoundTrip` (lines 121-158): the pair `(resp, err)`
it returns and its effects, a `send` being a call of the wrapped
round-tripper. -/
def RoundTrip (transport : Nat → Request → Exchange) (req : Request) :
    Exchange × List Effect :=
  let run := roundTripLoop transport req RetryCount 0 (transport 0 req)
  (run.1, .send req :: run.2)

/-- The effects of `count` retries in a row, the first of them made while the
counter is `n`: each is a wait of `backoff` of the counter and then a call. -/
def retryEffects (req : Request) : (count : Nat) → (n : Nat) → List Effect
  | 0, _ => []
  | count + 1, n => .sleep (backoff n) :: .send req :: retryEffects req count (n + 1)

/-! ## The collection parser and the pagination walker -/

/-- The library functions the request functions call and whose code is not in
the repository: `json.Unmarshal` into a fresh `map[string]any` (`none` for an
error), the base64 encoding of `SetBasicAuth`, the printing by package `fmt` of
a `float64`, a slice or a map held in an `any`, and the check of method and URL
by `http.NewRequestWithContext` (`some msg` for the error it reports). -/
structure Lib where
  unmarshal : String → Option JObj
  base64 : String → String
  fmtOther : JVal → String
  rejects : String → String → Option String

/-- The function `fmt.Sprint` on one `any` value: `<nil>` for nil, `true` or
`false` for a `bool`, the text itself for a `string`. -/
def fmtSprint (fmtOther : JVal → String) : JVal → String
  | .null => "<nil>"
  | .bool b => if b then "true" else "false"
  | .str s => s
  | v => fmtOther v

/-- The first occurrence of the non-empty `sep` in a text: what precedes it
and what follows it, or `none` when `sep` does not occur. -/
def cutFirst (sep : List Char) : List Char → Option (List Char × List Char)
  | [] => none
  | ch :: rest =>
    if sep.isPrefixOf (ch :: rest) then some ([], (ch :: rest).drop sep.length)
    else match cutFirst sep rest with
      | some (before, after) => some (ch :: before, after)
      | none => none

/-- The pieces of a text between the occurrences of the non-empty `sep`, found
from left to right; `fuel` bounds the number of cuts. -/
def splitChars (sep : List Char) : (fuel : Nat) → List Char → List (List Char)
  | 0, text => [text]
  | fuel + 1, text =>
    match cutFirst sep text with
    | none => [text]
    | some (before, after) => before :: splitChars sep fuel after

/-- The function `strings.Split(s, sep)`: the pieces of `s` between the
occurrences of `sep`, and for an empty `sep` the characters of `s` one by
one. -/
def stringsSplit (s sep : String) : List String :=
  if sep = "" then s.data.map String.singleton
  else (splitChars sep.data s.data.length s.data).map String.mk

/-- The function `http.NewRequestWithContext(ctx, method, url, nil)`: the
error of the library, or a request with an empty header; an empty method
stands for `GET`.  The field `url` keeps the text that was handed in; Go parses
it, and `request.URL` prints the parsed address, which is the same text for the
addresses used here but has some characters escaped when the text holds them
(`>` is printed `%3E`). -/
def NewRequestWithContext (rejects : String → String → Option String) (method url : String) :
    Except GoError Request :=
  match rejects method url with
  | some msg => .error (.external msg)
  | none => .ok { method := if method = "" then "GET" else method, url := url, header := [] }

/-- The loop of lines 330-332: every element of the array goes through the
single-value assertion `t.(map[string]any)`; `none` when one of them is not a
map, where the assertion panics. -/
def asRecords : List JVal → Option (List JObj)
  | [] => some []
  | .obj kv :: rest =>
    match asRecords rest with
    | some records => some (kv :: records)
    | none => none
  | _ :: _ => none

/-- What the collection functions hand back: the Go result, the effects in
order and the process state afterwards. -/
abbrev GenOut := GoResult (List JObj) × List Effect × World

/-- Go's `parseResponseForGenerator` (lines 317-362).  The call
`c.RequestWithoutBodyForGenerator(ctx, basePath, method, url, appendToResult)`
of line 345 is the parameter `next`, given the URL and the accumulator; `none`
is handed back only when `next` does so.  The slice that `append` hands back
(lines 338 and 348) is `some` of its elements, also when it is a nil slice of no
element (a nil accumulator and a page without record). -/
def parseResponseForGenerator (lib : Lib) (next : String → List JObj → World → Option GenOut)
    (basePath : String) (request : Request) (dataResponse : String)
    (appendToResult : List JObj) (w : World) : Option GenOut :=
  match lib.unmarshal dataResponse with
  | none => some (.ret none (some (parseBodyErr request dataResponse)), [], w)
  | some data =>
    match data.lookup "data" with
    | some rawData =>
      -- the type switch of lines 327-336
      let collected : Option (List JObj) :=
        match rawData with
        | .arr elements => asRecords elements
        | .obj kv => some [kv]
        | _ => some []
      match collected with
      | none => some (.panic, [], w)
      | some responseData =>
        let appended := appendToResult ++ responseData
        match data.lookup "meta" with
        | none => some (.ret (some appended) none, [], w)
        | some (.obj metaData) =>
          match metaData.lookup "paging" with
          | none => some (.ret (some appended) none, [], w)
          | some (.obj pageData) =>
            let nextPage := fmtSprint lib.fmtOther ((pageData.lookup "nextPageUri").getD .null)
            let nextPageUrl := stringsSplit nextPage basePath
            -- `nextPageUrl[1]`
            match nextPageUrl.get? 1 with
            | some url => next url appended w
            | none => some (.panic, [], w)
          -- `pageData.(map[string]any)` on something else
          | some _ => some (.panic, [], w)
        -- `metaData.(map[string]any)` on something else
        | some _ => some (.panic, [], w)
    | none =>
      match data.lookup "meta" with
      | some rawMeta =>
        let meta := rawMeta.asMapOrNil
        let responseData := [meta]
        match meta.lookup "responseCode" with
        | some errorCode =>
          if fmtSprint lib.fmtOther errorCode = "400" then
            some (.ret (some responseData) (some ErrBadRequest), [], w)
          else some (.ret (some responseData) (some ErrResourceNotFound), [], w)
        | none => some (.ret (some responseData) (some ErrResourceNotFound), [], w)
      | none => some (.ret none none, [], w)

/-- Go's `Client.RequestWithoutBodyForGenerator` (lines 377-387).  It calls
itself through `parseResponseForGenerator` once for every page; `fuel` bounds
the number of these calls, and `none` says that the bound was reached. -/
def RequestWithoutBodyForGenerator (lib : Lib) (net : Nat → Request → Exchange) (c : Client)
    (basePath method : String) :
    (fuel : Nat) → (url : String) → (appendToResult : List JObj) → World → Option GenOut
  | 0, _, _, _ => none
  | fuel + 1, url, appendToResult, w =>
    match NewRequestWithContext lib.rejects method (c.url ++ url) with
    | .error e => some (.ret none (some e), [], w)
    | .ok request =>
      let sent := doRequest lib.base64 net c request w
      -- the parser reads `request.Method` and `request.URL` only, which
      -- `doRequest` leaves as they are
      match sent.1 with
      | .panic => some (.panic, sent.2.1, sent.2.2)
      | .ret _ (some err) => some (.ret none (some err), sent.2.1, sent.2.2)
      | .ret rawBody none =>
        match parseResponseForGenerator lib
            (fun url2 acc w2 =>
              RequestWithoutBodyForGenerator lib net c basePath method fuel url2 acc w2)
            basePath request (rawBody.getD "") appendToResult sent.2.2 with
        | none => none
        | some out => some (out.1, sent.2.1 ++ out.2.1, out.2.2)

/-! ## Construction of a client and requests with a body -/

/-- A value of type `http.RoundTripper` as the code builds it:
`http.DefaultTransport`, or a `retryableTransport` around another one. -/
inductive Transport where
  | defaultTransport
  | retryable (transport : Transport)
  deriving DecidableEq, Repr

/-- The fields of an `http.Client` that the code writes.  A cookie jar is named
by a number (two jars are the same jar when they have the same number); `none`
is Go's `nil`; `Timeout` is in nanoseconds. -/
structure HttpClient where
  Transport : Option Transport
  Jar : Option Nat
  Timeout : Int
  deriving DecidableEq, Repr

set_option linter.unusedVariables false in
/-- The embedded field `*http.Client` of a `Client`, dereferenced.  `NewClient`
stores the pointer `http.DefaultClient` in every `Client` it builds (the local
`httpClient` of lines 166 and 171), so the fields are those of that one
package-level variable, whose present value is the argument `defaultClient`. -/
def Client.httpClient (c : Client) (defaultClient : HttpClient) : HttpClient :=
  defaultClient

/-- The Go type `Option`, a `func(*Client)`: it may write to the `Client` and,
through the embedded pointer, to `http.DefaultClient`. -/
abbrev ClientOption := Client × HttpClient → Client × HttpClient

/-- Go's `BasicAuth` (lines 68-73). -/
def BasicAuth (username password : String) : ClientOption :=
  fun s => ({ s.1 with username := username, password := password }, s.2)

/-- Go's `BearerToken` (lines 75-79). -/
def BearerToken (bearerToken : String) : ClientOption :=
  fun s => ({ s.1 with bearerToken := bearerToken }, s.2)

/-- Go's `Retries` (lines 81-87). -/
def Retries (numRetries : Nat) (retryMinInterval retryMaxInterval : Int) : ClientOption :=
  fun s => ({ s.1 with retries := numRetries, retryMinInterval := retryMinInterval,
                       retryMaxInterval := retryMaxInterval }, s.2)

/-- Go's `RequestLimits` (lines 89-94): `client.Client.Timeout` is a field of
`http.DefaultClient`. -/
def RequestLimits (requestTimeoutDuration requestMinInterval : Int) : ClientOption :=
  fun s => ({ s.1 with requestMinInterval := requestMinInterval },
    { s.2 with Timeout := requestTimeoutDuration })

set_option linter.unusedVariables false in
/-- Go's `NewClient` (lines 160-191): the new `Client` and the value of
`http.DefaultClient` afterwards.  The argument `insecure_skip_verify` is not
used (the lines that read it are commented out).  The field `rateLimiter`, nil
in the struct literal, is written last, from `requestMinInterval`. -/
def NewClient (url : String) (insecure_skip_verify : Bool) (cookiejar : Option Nat)
    (options : List ClientOption) (defaultClient : HttpClient) : Client × HttpClient :=
  let httpClient : HttpClient :=
    { defaultClient with Transport := some (.retryable .defaultTransport), Jar := cookiejar,
                         Timeout := 120000000000 }
  let client : Client :=
    { url := url, username := "", password := "", bearerToken := "", retries := 3,
      retryMinInterval := 1000000000, retryMaxInterval := 10000000000,
      requestMinInterval := 0, rateLimiter := .closed }
  let configured := options.foldl (fun s o => o s) (client, httpClient)
  let rateLimiter : RateLimiter :=
    if configured.1.requestMinInterval > 0 then .ticker configured.1.requestMinInterval
    else .closed
  ({ configured.1 with rateLimiter := rateLimiter }, configured.2)

/-- Go's `Client.RequestWithBody` (lines 193-208).  `marshalled` is what
`json.Marshal(body)` hands back.  The bytes go into the body of the request,
which no function of the file reads back and which is not kept here. -/
def RequestWithBody (lib : Lib) (net : Nat → Request → Exchange) (c : Client)
    (method url : String) (marshalled : Except GoError String) (w : World) :
    GoResult JObj × List Effect × World :=
  match marshalled with
  | .error e => (.ret none (some e), [], w)
  | .ok _ =>
    match NewRequestWithContext lib.rejects method (c.url ++ url) with
    | .error e => (.ret none (some e), [], w)
    | .ok request =>
      let sent := doRequest lib.base64 net c request w
      match sent.1 with
      | .panic => (.panic, sent.2.1, sent.2.2)
      | .ret _ (some err) => (.ret none (some err), sent.2.1, sent.2.2)
      | .ret rawBody none =>
        (parseResponseAsObject lib.unmarshal request (rawBody.getD ""), sent.2.1, sent.2.2)

/-- The outcomes of an exchange after which the loop of `doRequest` waits and
goes on: an error, and the answer 429 (lines 243-254 and 261-267). -/
def isRetried : Exchange → Bool
  | .fail _ => true
  | .answer resp => resp.statusCode = 429

/-- The decoding by `json.Unmarshal` of the sample bodies used below; every
other text is rejected. -/
def sampleUnmarshal (body : String) : Option JObj :=
  if body = "\x7b\"data\": \x7b\"a\": 1\x7d\x7d" then
    some [("data", .obj [("a", .num 1)])]
  else if body = "\x7b\"meta\": \x7b\"responseCode\": 200\x7d\x7d" then
    some [("meta", .obj [("responseCode", .num 200)])]
  else if body = "\x7b\"meta\": \x7b\"responseCode\": 404, \"error\": "
      ++ "\x7b\"description\": \"x\", \"status\": \"NOT_FOUND\"\x7d\x7d\x7d" then
    some [("meta", .obj [("responseCode", .num 404),
      ("error", .obj [("description", .str "x"), ("status", .str "NOT_FOUND")])])]
  else if body = "\x7b\"meta\": \x7b\"responseCode\": 401, \"error\": "
      ++ "\x7b\"description\": \"no\", \"status\": \"UNAUTHORIZED\"\x7d\x7d\x7d" then
    some [("meta", .obj [("responseCode", .num 401),
      ("error", .obj [("description", .str "no"), ("status", .str "UNAUTHORIZED")])])]
  else if body = "\x7b\x7d" then some []
  else none

/-- A request used in the examples. -/
def sampleRequest : Request :=
  { method := "GET", url := "http://broker/SEMP/v2/config/about", header := [] }

/-- A stand-in for the base64 encoding in the examples. -/
def sampleBase64 (s : String) : String :=
  "b64(" ++ s ++ ")"

/-- A client with basic-auth credentials and the default retry policy (3
retries, waits from 1s to 10s). -/
def sampleClient : Client :=
  { url := "http://broker", username := "admin", password := "secret", bearerToken := "",
    retries := 3, retryMinInterval := 1000000000, retryMaxInterval := 10000000000,
    requestMinInterval := 0, rateLimiter := .closed }

/-- A network on which every exchange answers 429. -/
def always429 : Nat → Request → Exchange :=
  fun _ _ => .answer
    { statusCode := 429, status := "429 Too Many Requests", body := "slow down",
      readErr := false }

/-- A network on which every exchange answers 200 with the given body. -/
def alwaysOK (body : String) : Nat → Request → Exchange :=
  fun _ _ => .answer { statusCode := 200, status := "200 OK", body := body, readErr := false }

/-- A network on which every exchange answers 200 with a body stream that
breaks after the bytes `partial`. -/
def brokenBody : Nat → Request → Exchange :=
  fun _ _ => .answer { statusCode := 200, status := "200 OK", body := "partial", readErr := true }

/-- A network on which every exchange answers 404 with the body `gone`. -/
def always404 : Nat → Request → Exchange :=
  fun _ _ => .answer
    { statusCode := 404, status := "404 Not Found", body := "gone", readErr := false }

/-- A network on which every exchange fails with the error of a cancelled
context. -/
def alwaysCanceled : Nat → Request → Exchange :=
  fun _ _ => .fail "context canceled"

/-- A wrapped round-tripper whose every call answers 503. -/
def always503 : Nat → Request → Exchange :=
  fun _ _ => .answer
    { statusCode := 503, status := "503 Service Unavailable", body := "", readErr := false }

/-- A wrapped round-tripper whose first six calls answer 503 and whose later
calls answer 200. -/
def sixTimes503 : Nat → Request → Exchange :=
  fun i r => if i < 6 then always503 i r else alwaysOK "ok" i r

/-- The process state before any request. -/
def freshWorld : World :=
  { firstRequest := true, calls := 0 }

/-- The first page of the sample collection: two records and a link to the
second page. -/
def pageOneBody : String :=
  "\x7b\"data\": [\x7b\"id\": 1\x7d, \x7b\"id\": 2\x7d], \"meta\": \x7b\""
    ++ "paging\": \x7b\"nextPageUri\": \"http://broker/SEMP/v2/config/msgVpns?"
    ++ "cursor=p2\"\x7d\x7d\x7d"

/-- The second and last page of the sample collection: one record and no `meta`
member. -/
def pageTwoBody : String :=
  "\x7b\"data\": [\x7b\"id\": 3\x7d]\x7d"

/-- The first page of the collection as the specification writes it, with the
numbers 1 and 2 in the place of records. -/
def numbersPageBody : String :=
  "\x7b\"data\": [1, 2], \"meta\": \x7b\"paging\": \x7b\"nextPageUri\": "
    ++ "\"http://broker/SEMP/v2/config/msgVpns?cursor=p2\"\x7d\x7d\x7d"

/-- A page whose `meta` holds a `paging` object without a `nextPageUri` member.
-/
def pagingWithoutUriBody : String :=
  "\x7b\"data\": [\x7b\"id\": 1\x7d], \"meta\": \x7b\"paging\": \x7b\x7d"
    ++ "\x7d\x7d"

/-- A body without `data` whose `meta` reports the response code 200. -/
def metaOnly200Body : String :=
  "\x7b\"meta\": \x7b\"responseCode\": 200\x7d\x7d"

/-- A body without `data` whose `meta` reports the response code 400. -/
def metaOnly400Body : String :=
  "\x7b\"meta\": \x7b\"responseCode\": 400\x7d\x7d"

/-- A body without `data` whose `meta` reports the response code 404. -/
def metaOnly404Body : String :=
  "\x7b\"meta\": \x7b\"responseCode\": 404\x7d\x7d"

/-- The decoding by `json.Unmarshal` of the sample bodies of the collection
examples; every other text is rejected. -/
def sampleUnmarshalPages (body : String) : Option JObj :=
  if body = pageOneBody then
    some [("data", .arr [.obj [("id", .num 1)], .obj [("id", .num 2)]]),
      ("meta", .obj [("paging", .obj [("nextPageUri",
        .str "http://broker/SEMP/v2/config/msgVpns?cursor=p2")])])]
  else if body = pageTwoBody then
    some [("data", .arr [.obj [("id", .num 3)]])]
  else if body = numbersPageBody then
    some [("data", .arr [.num 1, .num 2]),
      ("meta", .obj [("paging", .obj [("nextPageUri",
        .str "http://broker/SEMP/v2/config/msgVpns?cursor=p2")])])]
  else if body = pagingWithoutUriBody then
    some [("data", .arr [.obj [("id", .num 1)]]), ("meta", .obj [("paging", .obj [])])]
  else if body = metaOnly200Body then
    some [("meta", .obj [("responseCode", .num 200)])]
  else if body = metaOnly400Body then
    some [("meta", .obj [("responseCode", .num 400)])]
  else if body = metaOnly404Body then
    some [("meta", .obj [("responseCode", .num 404)])]
  else none

/-- A stand-in in the examples for the printing of numbers, slices and maps by
package `fmt`; it prints the numbers 200, 400 and 404 as `fmt.Sprint` does. -/
def sampleFmtOther : JVal → String
  | .num x => if x = 400 then "400" else if x = 200 then "200" else if x = 404 then "404"
      else "number"
  | .arr _ => "[...]"
  | .obj _ => "map[...]"
  | _ => ""

/-- The library of the examples: it accepts every method and URL. -/
def sampleLib : Lib :=
  { unmarshal := sampleUnmarshalPages, base64 := sampleBase64, fmtOther := sampleFmtOther,
    rejects := fun _ _ => none }

/-- A client for the collection examples, whose base URL ends with the base
path `/SEMP/v2/config`. -/
def configClient : Client :=
  { sampleClient with url := "http://broker/SEMP/v2/config" }

/-- A network that serves the two pages of the sample collection, one after
the other, and answers 404 afterwards. -/
def twoPages : Nat → Request → Exchange :=
  fun i r =>
    if i = 0 then alwaysOK pageOneBody i r
    else if i = 1 then alwaysOK pageTwoBody i r
    else always404 i r

/-- A network whose first answer is the first page as the specification
writes it, with numbers in the place of records. -/
def numbersFirst : Nat → Request → Exchange :=
  fun i r => if i = 0 then alwaysOK numbersPageBody i r else alwaysOK pageTwoBody i r

/-- A `next` for the examples of the parser alone: it records, in the place of
the call of line 345, a request to the URL it is given. -/
def recordNext : String → List JObj → World → Option GenOut :=
  fun url acc w =>
    some (.ret (some acc) none, [.send { method := "GET", url := url, header := [] }], w)

/-- A body without `data` whose `meta` member is the number 5. -/
def metaNumberBody : String :=
  "\x7b\"meta\": 5\x7d"

/-- A body without `data` whose `meta` object has no member. -/
def metaEmptyBody : String :=
  "\x7b\"meta\": \x7b\x7d\x7d"

/-- A body whose `data` member is an array and whose `meta` describes a failed
request. -/
def dataArrayErrorBody : String :=
  "\x7b\"data\": [1], \"meta\": \x7b\"responseCode\": 400, \"error\": "
    ++ "\x7b\"description\": \"bad\", \"status\": \"INVALID\"\x7d\x7d\x7d"

/-- A first page whose `nextPageUri` holds the base path `/SEMP/v2/config`
twice, the second time inside the cursor. -/
def cursorPageBody : String :=
  "\x7b\"data\": [\x7b\"id\": 1\x7d], \"meta\": \x7b\"paging\": \x7b\"nex"
    ++ "tPageUri\": \"http://broker/SEMP/v2/config/msgVpns?cursor=/SEMP/v2/con"
    ++ "fig/next\"\x7d\x7d\x7d"

/-- The decoding by `json.Unmarshal` of further sample bodies; the other
texts are decoded as `sampleUnmarshalPages` does. -/
def sampleUnmarshalMore (body : String) : Option JObj :=
  if body = metaNumberBody then some [("meta", .num 5)]
  else if body = metaEmptyBody then some [("meta", .obj [])]
  else if body = dataArrayErrorBody then
    some [("data", .arr [.num 1]),
      ("meta", .obj [("responseCode", .num 400),
        ("error", .obj [("description", .str "bad"), ("status", .str "INVALID")])])]
  else if body = cursorPageBody then
    some [("data", .arr [.obj [("id", .num 1)]]),
      ("meta", .obj [("paging", .obj [("nextPageUri",
        .str "http://broker/SEMP/v2/config/msgVpns?cursor=/SEMP/v2/config/next")])])]
  else if body = "\x7b\x7d" then some []
  else sampleUnmarshalPages body

/-- The library of the examples with the further sample bodies. -/
def moreLib : Lib :=
  { sampleLib with unmarshal := sampleUnmarshalMore }

/-- A network whose first answer is the page with the base path twice in its
link and whose later answers are the last page of the sample collection. -/
def cursorFirst : Nat → Request → Exchange :=
  fun i r => if i = 0 then alwaysOK cursorPageBody i r else alwaysOK pageTwoBody i r

/-- The value of `http.DefaultClient` when the program starts: the zero value
of `http.Client`. -/
def DefaultClient : HttpClient :=
  { Transport := none, Jar := none, Timeout := 0 }

/-- A first client, built with basic-auth credentials and the cookie jar 1. -/
def firstClient : Client × HttpClient :=
  NewClient "http://broker" false (some 1) [BasicAuth "admin" "secret"] DefaultClient

/-- A second client, built after the first one with the cookie jar 2, a
timeout of 5s and a minimum request interval of 1s. -/
def secondClient : Client × HttpClient :=
  NewClient "http://other" false (some 2)
    [BasicAuth "admin" "secret", RequestLimits 5000000000 1000000000] firstClient.2

/-- A last page whose `meta` member is `null`: it holds one record and no
paging link. -/
def metaNullBody : String :=
  "\x7b\"data\": [\x7b\"id\": 3\x7d], \"meta\": null\x7d"

/-- A body whose `data` is a single object and whose `meta` holds `paging` as
`null`: no paging link either. -/
def pagingNullBody : String :=
  "\x7b\"data\": \x7b\"id\": 3\x7d, \"meta\": \x7b\"paging\": null\x7d\x7d"

/-- The decoding by `json.Unmarshal` of the two bodies above (a JSON `null`
is stored as a nil value under its key); the other texts are decoded as
`sampleUnmarshalMore` does. -/
def sampleUnmarshalLast (body : String) : Option JObj :=
  if body = metaNullBody then
    some [("data", .arr [.obj [("id", .num 3)]]), ("meta", .null)]
  else if body = pagingNullBody then
    some [("data", .obj [("id", .num 3)]), ("meta", .obj [("paging", .null)])]
  else sampleUnmarshalMore body

/-- The library of the examples with the two bodies above. -/
def lastLib : Lib :=
  { sampleLib with unmarshal := sampleUnmarshalLast }

/-- The address of the collection of the examples. -/
def collectionUrl : String :=
  "http://broker/SEMP/v2/config/msgVpns"

/-- The link of `cursorPageBody`, in which the base path `/SEMP/v2/config`
occurs twice. -/
def cursorLink : String :=
  "http://broker/SEMP/v2/config/msgVpns?cursor=/SEMP/v2/config/next"

/-- A broker that serves a collection of two pages by address: the page
`cursorPageBody` at the address of the collection, the page `pageTwoBody` at the
address that the link of the first page names, and 404 at every other
address. -/
def cursorBroker : Nat → Request → Exchange :=
  fun i r =>
    if r.url = collectionUrl then alwaysOK cursorPageBody i r
    else if r.url = cursorLink then alwaysOK pageTwoBody i r
    else always404 i r

/-- A broker that serves a collection of two pages by address: the page
`pageOneBody` at the address of the collection, the page `metaNullBody` at the
address that the link of the first page names, and 404 at every other
address. -/
def nullMetaBroker : Nat → Request → Exchange :=
  fun i r =>
    if r.url = collectionUrl then alwaysOK pageOneBody i r
    else if r.url = "http://broker/SEMP/v2/config/msgVpns?cursor=p2" then
      alwaysOK metaNullBody i r
    else always404 i r

/-! ## The loop, case by case -/

theorem retryLoop_fail (c : Client) (net : Nat → Request → Exchange) (request : Request)
    (n : Nat) (retryWait : Int) (response : Option Response) (err : Option GoError) (calls : Nat)
    (msg : String) (h : net calls request = .fail msg) :
    retryLoop c net request (n + 1) retryWait response err calls =
      ((retryLoop c net request n (nextRetryWait c retryWait) none (some (.external msg))
          (calls + 1)).1,
        .send request :: .sleep retryWait ::
          (retryLoop c net request n (nextRetryWait c retryWait) none (some (.external msg))
            (calls + 1)).2.1,
        (retryLoop c net request n (nextRetryWait c retryWait) none (some (.external msg))
          (calls + 1)).2.2) := by
  simp only [retryLoop, h]

theorem retryLoop_429 (c : Client) (net : Nat → Request → Exchange) (request : Request)
    (n : Nat) (retryWait : Int) (response : Option Response) (err : Option GoError) (calls : Nat)
    (resp : Response) (h : net calls request = .answer resp) (hs : resp.statusCode = 429) :
    retryLoop c net request (n + 1) retryWait response err calls =
      ((retryLoop c net request n (nextRetryWait c retryWait) (some resp.afterReadAll) none
          (calls + 1)).1,
        .send request :: .sleep retryWait ::
          (retryLoop c net request n (nextRetryWait c retryWait) (some resp.afterReadAll) none
            (calls + 1)).2.1,
        (retryLoop c net request n (nextRetryWait c retryWait) (some resp.afterReadAll) none
          (calls + 1)).2.2) := by
  simp [retryLoop, h, hs]

theorem retryLoop_stop (c : Client) (net : Nat → Request → Exchange) (request : Request)
    (n : Nat) (retryWait : Int) (response : Option Response) (err : Option GoError) (calls : Nat)
    (resp : Response) (h : net calls request = .answer resp)
    (hs : resp.statusCode = 200 ∨ resp.statusCode = 400) :
    retryLoop c net request (n + 1) retryWait response err calls =
      (.left (some resp) none, [.send request], calls + 1) := by
  rcases hs with hs | hs <;> simp [retryLoop, h, hs]

theorem retryLoop_other (c : Client) (net : Nat → Request → Exchange) (request : Request)
    (n : Nat) (retryWait : Int) (response : Option Response) (err : Option GoError) (calls : Nat)
    (resp : Response) (h : net calls request = .answer resp)
    (h200 : resp.statusCode ≠ 200) (h400 : resp.statusCode ≠ 400) (h429 : resp.statusCode ≠ 429) :
    retryLoop c net request (n + 1) retryWait response err calls =
      (.returned (.errorf (unexpectedStatusMsg request resp)), [.send request], calls + 1) := by
  simp [retryLoop, h, h200, h400, h429]

/-- The four ways one iteration of the loop can go. -/
theorem retryLoop_cases (net : Nat → Request → Exchange) (request : Request) (calls : Nat) :
    (∃ msg, net calls request = .fail msg)
    ∨ (∃ resp, net calls request = .answer resp ∧ resp.statusCode = 429)
    ∨ (∃ resp, net calls request = .answer resp
        ∧ (resp.statusCode = 200 ∨ resp.statusCode = 400))
    ∨ (∃ resp, net calls request = .answer resp ∧ resp.statusCode ≠ 200
        ∧ resp.statusCode ≠ 400 ∧ resp.statusCode ≠ 429) := by
  cases h : net calls request with
  | fail msg => exact Or.inl ⟨msg, rfl⟩
  | answer resp =>
    by_cases h200 : resp.statusCode = 200
    · exact Or.inr (Or.inr (Or.inl ⟨resp, rfl, Or.inl h200⟩))
    by_cases h400 : resp.statusCode = 400
    · exact Or.inr (Or.inr (Or.inl ⟨resp, rfl, Or.inr h400⟩))
    by_cases h429 : resp.statusCode = 429
    · exact Or.inr (Or.inl ⟨resp, rfl, h429⟩)
    · exact Or.inr (Or.inr (Or.inr ⟨resp, rfl, h200, h400, h429⟩))

/-- Every request the loop hands to `c.Do` is the request it was given. -/
theorem retryLoop_sends_mem (c : Client) (net : Nat → Request → Exchange) (request : Request)
    (n : Nat) (retryWait : Int) (response : Option Response) (err : Option GoError) (calls : Nat) :
    ∀ r ∈ sends (retryLoop c net request n retryWait response err calls).2.1, r = request := by
  induction n generalizing retryWait response err calls with
  | zero => intro r hr; simp [retryLoop, sends] at hr
  | succ n ih =>
    intro r hr
    rcases retryLoop_cases net request calls with ⟨msg, h⟩ | ⟨resp, h, hs⟩ | ⟨resp, h, hs⟩
      | ⟨resp, h, h1, h2, h3⟩
    · rw [retryLoop_fail c net request n retryWait response err calls msg h] at hr
      simp only [sends, List.mem_cons] at hr
      rcases hr with hr | hr
      · exact hr
      · exact ih _ _ _ _ r hr
    · rw [retryLoop_429 c net request n retryWait response err calls resp h hs] at hr
      simp only [sends, List.mem_cons] at hr
      rcases hr with hr | hr
      · exact hr
      · exact ih _ _ _ _ r hr
    · rw [retryLoop_stop c net request n retryWait response err calls resp h hs] at hr
      simpa [sends] using hr
    · rw [retryLoop_other c net request n retryWait response err calls resp h h1 h2 h3] at hr
      simpa [sends] using hr

/-- The loop makes at most `attemptsRemaining` exchanges. -/
theorem retryLoop_sends_le (c : Client) (net : Nat → Request → Exchange) (request : Request)
    (n : Nat) (retryWait : Int) (response : Option Response) (err : Option GoError) (calls : Nat) :
    (sends (retryLoop c net request n retryWait response err calls).2.1).length ≤ n := by
  induction n generalizing retryWait response err calls with
  | zero => simp [retryLoop, sends]
  | succ n ih =>
    rcases retryLoop_cases net request calls with ⟨msg, h⟩ | ⟨resp, h, hs⟩ | ⟨resp, h, hs⟩
      | ⟨resp, h, h1, h2, h3⟩
    · rw [retryLoop_fail c net request n retryWait response err calls msg h]
      simpa [sends] using ih _ _ _ _
    · rw [retryLoop_429 c net request n retryWait response err calls resp h hs]
      simpa [sends] using ih _ _ _ _
    · rw [retryLoop_stop c net request n retryWait response err calls resp h hs]
      simp [sends]
    · rw [retryLoop_other c net request n retryWait response err calls resp h h1 h2 h3]
      simp [sends]

/-- When every exchange answers 429 the loop makes `attemptsRemaining`
exchanges and waits after each of them, the waits following `nextRetryWait`. -/
theorem retryLoop_all_429 (c : Client) (net : Nat → Request → Exchange) (request : Request)
    (h429 : ∀ i, ∃ resp, net i request = .answer resp ∧ resp.statusCode = 429)
    (n : Nat) (retryWait : Int) (response : Option Response) (err : Option GoError) (calls : Nat) :
    (sends (retryLoop c net request n retryWait response err calls).2.1).length = n
    ∧ sleeps (retryLoop c net request n retryWait response err calls).2.1
        = List.iterate (nextRetryWait c) retryWait n := by
  induction n generalizing retryWait response err calls with
  | zero => simp [retryLoop, sends, sleeps]
  | succ n ih =>
    obtain ⟨resp, h, hs⟩ := h429 calls
    rw [retryLoop_429 c net request n retryWait response err calls resp h hs]
    obtain ⟨h1, h2⟩ := ih (nextRetryWait c retryWait) (some resp.afterReadAll) none (calls + 1)
    simp [sends, sleeps, h1, h2, List.iterate]

/-- The waits of the loop, whatever the exchanges answer, follow
`nextRetryWait` from the initial `retryWait`. -/
theorem retryLoop_sleeps (c : Client) (net : Nat → Request → Exchange) (request : Request)
    (n : Nat) (retryWait : Int) (response : Option Response) (err : Option GoError) (calls : Nat) :
    sleeps (retryLoop c net request n retryWait response err calls).2.1
      = List.iterate (nextRetryWait c) retryWait
          (sleeps (retryLoop c net request n retryWait response err calls).2.1).length := by
  induction n generalizing retryWait response err calls with
  | zero => simp [retryLoop, sleeps, List.iterate]
  | succ n ih =>
    rcases retryLoop_cases net request calls with ⟨msg, h⟩ | ⟨resp, h, hs⟩ | ⟨resp, h, hs⟩
      | ⟨resp, h, h1, h2, h3⟩
    · rw [retryLoop_fail c net request n retryWait response err calls msg h]
      simp only [sleeps, List.length_cons, List.iterate, List.cons.injEq, true_and]
      exact ih _ _ _ _
    · rw [retryLoop_429 c net request n retryWait response err calls resp h hs]
      simp only [sleeps, List.length_cons, List.iterate, List.cons.injEq, true_and]
      exact ih _ _ _ _
    · rw [retryLoop_stop c net request n retryWait response err calls resp h hs]
      simp [sleeps, List.iterate]
    · rw [retryLoop_other c net request n retryWait response err calls resp h h1 h2 h3]
      simp [sleeps, List.iterate]

/-- The errors the loop can leave behind: a `return` inside the loop carries
the error of the `default` case, and a nil `response` at the end comes with the
initial `err` or with an error of the HTTP library. -/
theorem retryLoop_exit (c : Client) (net : Nat → Request → Exchange) (request : Request)
    (n : Nat) (retryWait : Int) (response : Option Response) (err : Option GoError) (calls : Nat)
    (herr : err = none ∨ ∃ msg, err = some (.external msg)) :
    (∀ e, (retryLoop c net request n retryWait response err calls).1 = .returned e →
      ∃ resp, e = .errorf (unexpectedStatusMsg request resp))
    ∧ (∀ e, (retryLoop c net request n retryWait response err calls).1 = .left none e →
      e = none ∨ ∃ msg, e = some (.external msg)) := by
  induction n generalizing retryWait response err calls with
  | zero =>
    constructor
    · intro e he; simp [retryLoop] at he
    · intro e he
      simp only [retryLoop, LoopExit.left.injEq] at he
      rw [← he.2]; exact herr
  | succ n ih =>
    rcases retryLoop_cases net request calls with ⟨msg, h⟩ | ⟨resp, h, hs⟩ | ⟨resp, h, hs⟩
      | ⟨resp, h, h1, h2, h3⟩
    · rw [retryLoop_fail c net request n retryWait response err calls msg h]
      exact ih _ _ _ _ (Or.inr ⟨msg, rfl⟩)
    · rw [retryLoop_429 c net request n retryWait response err calls resp h hs]
      exact ih _ _ _ _ (Or.inl rfl)
    · rw [retryLoop_stop c net request n retryWait response err calls resp h hs]
      constructor
      · intro e he; simp at he
      · intro e he; simp at he
    · rw [retryLoop_other c net request n retryWait response err calls resp h h1 h2 h3]
      constructor
      · intro e he
        simp only [LoopExit.returned.injEq] at he
        exact ⟨resp, he.symm⟩
      · intro e he; simp at he

theorem sends_append (xs ys : List Effect) : sends (xs ++ ys) = sends xs ++ sends ys := by
  induction xs with
  | nil => rfl
  | cons e es ih => cases e <;> simp [sends, ih]

theorem sleeps_append (xs ys : List Effect) : sleeps (xs ++ ys) = sleeps xs ++ sleeps ys := by
  induction xs with
  | nil => rfl
  | cons e es ih => cases e <;> simp [sleeps, ih]

/-- After `Header.Set(key, value)` the header holds `value` under `key` and
nothing else. -/
theorem headerValues_setHeader (r : Request) (key value : String) :
    (r.setHeader key value).headerValues key = [value] := by
  simp [Request.setHeader, Request.headerValues, List.filter_cons, List.filter_filter]

/-- The requests `doRequest` sends are the prepared request. -/
theorem doRequest_sends_mem (base64 : String → String) (net : Nat → Request → Exchange)
    (c : Client) (request : Request) (w : World) :
    ∀ r ∈ sends (doRequest base64 net c request w).2.1, prepare base64 c request = some r := by
  intro r hr
  unfold doRequest at hr
  cases hp : prepare base64 c request with
  | none =>
    rw [hp] at hr
    by_cases hf : w.firstRequest <;> simp [hf, sends] at hr
  | some request2 =>
    rw [hp] at hr
    simp only [sends_append, List.mem_append] at hr
    rcases hr with hr | hr
    · by_cases hf : w.firstRequest <;> simp [hf, sends] at hr
    · rw [retryLoop_sends_mem c net request2 _ _ _ _ _ r hr]

/-! ## Substrings -/

theorem Contains.self (s : String) : Contains s s :=
  List.infix_refl _

theorem Contains.left {a p : String} (b : String) (h : Contains a p) : Contains (a ++ b) p := by
  unfold Contains at *
  rw [String.data_append]
  exact List.IsInfix.trans h (List.infix_append' [] a.data b.data)

theorem Contains.right {b p : String} (a : String) (h : Contains b p) : Contains (a ++ b) p := by
  unfold Contains at *
  rw [String.data_append]
  exact List.IsInfix.trans h (List.suffix_append a.data b.data).isInfix

/-! ## Properties of the envelope parser -/

/-- C1: when the decoded body has a `data` member that is an object `d`
(whatever else the body holds, a `meta` member included), the function
`parseResponseAsObject` returns `d` and no error. -/
theorem parseResponseAsObject_data_object (unmarshal : String → Option JObj) (request : Request)
    (body : String) (data d : JObj) (hdec : unmarshal body = some data)
    (hdata : data.lookup "data" = some (.obj d)) :
    parseResponseAsObject unmarshal request body = .ret (some d) none := by
  simp [parseResponseAsObject, hdec, hdata]

/-- The body `{"data": {"a": 1}}` yields the mapping `{"a": 1}`. -/
theorem parseResponseAsObject_data_object_witness :
    parseResponseAsObject sampleUnmarshal sampleRequest "\x7b\"data\": \x7b\"a\": 1\x7d\x7d"
      = .ret (some [("a", .num 1)]) none :=
  parseResponseAsObject_data_object sampleUnmarshal sampleRequest _
    [("data", .obj [("a", .num 1)])] [("a", .num 1)] (by rfl) (by rfl)

/-- C2: when the decoded body has no `data` member and its `meta` member is an
object whose `responseCode` is the number 200, the function
`parseResponseAsObject` returns a nil result and no error, whatever else `meta`
holds. -/
theorem parseResponseAsObject_meta_200 (unmarshal : String → Option JObj) (request : Request)
    (body : String) (data meta : JObj) (hdec : unmarshal body = some data)
    (hdata : data.lookup "data" = none) (hmeta : data.lookup "meta" = some (.obj meta))
    (hcode : meta.lookup "responseCode" = some (.num 200)) :
    parseResponseAsObject unmarshal request body = .ret none none := by
  simp [parseResponseAsObject, hdec, hdata, hmeta, JVal.asMapOrNil, hcode]

/-- The body `{"meta": {"responseCode": 200}}` yields a nil result and no error. -/
theorem parseResponseAsObject_meta_200_witness :
    parseResponseAsObject sampleUnmarshal sampleRequest
      "\x7b\"meta\": \x7b\"responseCode\": 200\x7d\x7d" = .ret none none :=
  parseResponseAsObject_meta_200 sampleUnmarshal sampleRequest _
    [("meta", .obj [("responseCode", .num 200)])] [("responseCode", .num 200)]
    (by rfl) (by rfl) (by rfl) (by rfl)

/-- C3: when the decoded body has no `data` member, and `meta` is an object
with a numeric `responseCode` other than 200 and an `error` object whose
`status` is the string `NOT_FOUND` and whose `description` is a string, the
function `parseResponseAsObject` returns no result and an error for which
`errors.Is(err, ErrResourceNotFound)` holds and whose text contains the
description. -/
theorem parseResponseAsObject_not_found (unmarshal : String → Option JObj) (request : Request)
    (body : String) (data meta errObj : JObj) (code : ℚ) (description : String)
    (hdec : unmarshal body = some data) (hdata : data.lookup "data" = none)
    (hmeta : data.lookup "meta" = some (.obj meta))
    (hcode : meta.lookup "responseCode" = some (.num code)) (hne : code ≠ 200)
    (herr : meta.lookup "error" = some (.obj errObj))
    (hstatus : errObj.lookup "status" = some (.str "NOT_FOUND"))
    (hdesc : errObj.lookup "description" = some (.str description)) :
    ∃ err, parseResponseAsObject unmarshal request body = .ret none (some err)
      ∧ errorsIs err .resourceNotFound = true ∧ Contains err.Error description := by
  refine ⟨notFoundErr request description "NOT_FOUND", ?_, ?_, ?_⟩
  · simp only [parseResponseAsObject, hdec, hdata, hmeta, JVal.asMapOrNil, hcode, hne, herr,
      hdesc, hstatus, if_false, if_true]
  · rfl
  · exact Contains.left _ (Contains.left _ (Contains.left _ (Contains.left _
      (Contains.right _ (Contains.self _)))))

/-- The body `{"meta": {"responseCode": 404, "error": {"description": "x",
"status": "NOT_FOUND"}}}` yields a not-found error whose text contains `x`. -/
theorem parseResponseAsObject_not_found_witness :
    ∃ err, parseResponseAsObject sampleUnmarshal sampleRequest
        ("\x7b\"meta\": \x7b\"responseCode\": 404, \"error\": "
          ++ "\x7b\"description\": \"x\", \"status\": \"NOT_FOUND\"\x7d\x7d\x7d")
        = .ret none (some err)
      ∧ errorsIs err .resourceNotFound = true ∧ Contains err.Error "x" :=
  parseResponseAsObject_not_found sampleUnmarshal sampleRequest _
    [("meta", .obj [("responseCode", .num 404),
      ("error", .obj [("description", .str "x"), ("status", .str "NOT_FOUND")])])]
    [("responseCode", .num 404),
      ("error", .obj [("description", .str "x"), ("status", .str "NOT_FOUND")])]
    [("description", .str "x"), ("status", .str "NOT_FOUND")] 404 "x"
    (by rfl) (by rfl) (by rfl) (by rfl) (by decide) (by rfl) (by rfl) (by rfl)

/-- C4: when the decoded body has no `data` member, and `meta` is an object
with a numeric `responseCode` other than 200 and an `error` object whose
`status` is a string other than `NOT_FOUND` and whose `description` is a string,
the function `parseResponseAsObject` returns no result and an error for which
`errors.Is(err, ErrResourceNotFound)` does not hold and whose text contains the
request method, the request URL, the description and the status. -/
theorem parseResponseAsObject_request_failed (unmarshal : String → Option JObj)
    (request : Request) (body : String) (data meta errObj : JObj) (code : ℚ)
    (description status : String)
    (hdec : unmarshal body = some data) (hdata : data.lookup "data" = none)
    (hmeta : data.lookup "meta" = some (.obj meta))
    (hcode : meta.lookup "responseCode" = some (.num code)) (hne : code ≠ 200)
    (herr : meta.lookup "error" = some (.obj errObj))
    (hstatus : errObj.lookup "status" = some (.str status)) (hnf : status ≠ "NOT_FOUND")
    (hdesc : errObj.lookup "description" = some (.str description)) :
    ∃ err, parseResponseAsObject unmarshal request body = .ret none (some err)
      ∧ errorsIs err .resourceNotFound = false
      ∧ Contains err.Error request.method ∧ Contains err.Error request.url
      ∧ Contains err.Error description ∧ Contains err.Error status := by
  refine ⟨requestFailedErr request description status, ?_, ?_, ?_, ?_, ?_, ?_⟩
  · simp only [parseResponseAsObject, hdec, hdata, hmeta, JVal.asMapOrNil, hcode, hne, herr,
      hdesc, hstatus, hnf, if_false]
  · rfl
  · exact Contains.left _ (Contains.left _ (Contains.left _ (Contains.left _
      (Contains.right _ (Contains.self _)))))
  · exact Contains.left _ (Contains.left _ (Contains.left _ (Contains.left _ (Contains.left _
      (Contains.left _ (Contains.right _ (Contains.self _)))))))
  · exact Contains.left _ (Contains.left _ (Contains.right _ (Contains.self _)))
  · exact Contains.right _ (Contains.self _)

/-- The body `{"meta": {"responseCode": 401, "error": {"description": "no",
"status": "UNAUTHORIZED"}}}` yields a request-failed error. -/
theorem parseResponseAsObject_request_failed_witness :
    ∃ err, parseResponseAsObject sampleUnmarshal sampleRequest
        ("\x7b\"meta\": \x7b\"responseCode\": 401, \"error\": "
          ++ "\x7b\"description\": \"no\", \"status\": \"UNAUTHORIZED\"\x7d\x7d\x7d")
        = .ret none (some err)
      ∧ errorsIs err .resourceNotFound = false
      ∧ Contains err.Error sampleRequest.method ∧ Contains err.Error sampleRequest.url
      ∧ Contains err.Error "no" ∧ Contains err.Error "UNAUTHORIZED" :=
  parseResponseAsObject_request_failed sampleUnmarshal sampleRequest _
    [("meta", .obj [("responseCode", .num 401),
      ("error", .obj [("description", .str "no"), ("status", .str "UNAUTHORIZED")])])]
    [("responseCode", .num 401),
      ("error", .obj [("description", .str "no"), ("status", .str "UNAUTHORIZED")])]
    [("description", .str "no"), ("status", .str "UNAUTHORIZED")] 401 "no" "UNAUTHORIZED"
    (by rfl) (by rfl) (by rfl) (by rfl) (by decide) (by rfl) (by rfl) (by decide) (by rfl)

/-- C5: when `json.Unmarshal` rejects the body, and when the decoded body has
neither a `data` nor a `meta` member, the function `parseResponseAsObject`
returns no result and an error whose text contains the body. -/
theorem parseResponseAsObject_malformed (unmarshal : String → Option JObj) (request : Request)
    (body : String)
    (h : unmarshal body = none ∨
      ∃ data, unmarshal body = some data ∧ data.lookup "data" = none
        ∧ data.lookup "meta" = none) :
    ∃ err, parseResponseAsObject unmarshal request body = .ret none (some err)
      ∧ Contains err.Error body := by
  rcases h with h | ⟨data, hdec, hdata, hmeta⟩
  · refine ⟨parseBodyErr request body, ?_, ?_⟩
    · simp only [parseResponseAsObject, h]
    · exact Contains.right _ (Contains.self _)
  · refine ⟨parseDetailsErr request body, ?_, ?_⟩
    · simp only [parseResponseAsObject, hdec, hdata, hmeta]
    · exact Contains.right _ (Contains.self _)

/-- The text `oops` is not JSON and the body `{}` has no member: both yield an
error whose text contains the body. -/
theorem parseResponseAsObject_malformed_witness :
    (∃ err, parseResponseAsObject sampleUnmarshal sampleRequest "oops" = .ret none (some err)
      ∧ Contains err.Error "oops")
    ∧ ∃ err, parseResponseAsObject sampleUnmarshal sampleRequest "\x7b\x7d"
        = .ret none (some err) ∧ Contains err.Error "\x7b\x7d" :=
  ⟨parseResponseAsObject_malformed sampleUnmarshal sampleRequest "oops" (Or.inl (by rfl)),
   parseResponseAsObject_malformed sampleUnmarshal sampleRequest "\x7b\x7d"
    (Or.inr ⟨[], by rfl, by rfl, by rfl⟩)⟩

/-! ## Credentials -/

theorem noCredentialsMsg_ne_unexpected (request : Request) (resp : Response) :
    unexpectedStatusMsg request resp ≠ noCredentialsMsg := by
  intro h
  have h2 := congrArg String.data h
  simp [unexpectedStatusMsg, noCredentialsMsg] at h2

theorem noCredentialsMsg_ne_couldNotPerform (request : Request) (resp : Response)
    (rawBody : String) : couldNotPerformMsg request resp rawBody ≠ noCredentialsMsg := by
  intro h
  have h2 := congrArg String.data h
  simp [couldNotPerformMsg, noCredentialsMsg] at h2

theorem bearer_ne_basic (token x : String) : "Bearer " ++ token ≠ "Basic " ++ x := by
  intro h
  have h2 := congrArg String.data h
  simp at h2

/-- An iteration of the loop starts with the exchange. -/
theorem retryLoop_head (c : Client) (net : Nat → Request → Exchange) (request : Request)
    (n : Nat) (retryWait : Int) (response : Option Response) (err : Option GoError) (calls : Nat) :
    ∃ rest, (retryLoop c net request (n + 1) retryWait response err calls).2.1
      = .send request :: rest := by
  rcases retryLoop_cases net request calls with ⟨msg, h⟩ | ⟨r, h, hr⟩ | ⟨r, h, hr⟩
    | ⟨r, h, h1, h2, h3⟩
  · rw [retryLoop_fail c net request n retryWait response err calls msg h]; exact ⟨_, rfl⟩
  · rw [retryLoop_429 c net request n retryWait response err calls r h hr]; exact ⟨_, rfl⟩
  · rw [retryLoop_stop c net request n retryWait response err calls r h hr]; exact ⟨_, rfl⟩
  · rw [retryLoop_other c net request n retryWait response err calls r h h1 h2 h3]
    exact ⟨_, rfl⟩

/-- The steps of `prepare` write to the header only. -/
theorem prepare_method_url (base64 : String → String) (c : Client) (request request2 : Request)
    (hp : prepare base64 c request = some request2) :
    request2.method = request.method ∧ request2.url = request.url := by
  unfold prepare at hp
  simp only [Request.SetBasicAuth] at hp
  split_ifs at hp <;> simp only [Option.some.injEq] at hp <;> subst hp <;> exact ⟨rfl, rfl⟩

/-- What `doRequest` does once the request is prepared. -/
theorem doRequest_prepared (base64 : String → String) (net : Nat → Request → Exchange)
    (c : Client) (request : Request) (w : World) (request2 : Request)
    (hp : prepare base64 c request = some request2) :
    doRequest base64 net c request w =
      (finish request2 (retryLoop c net request2 ((c.retries + 1) % 2 ^ 64) c.retryMinInterval
          none none w.calls).1,
        (if w.firstRequest then [] else [.gate]) ++
          (retryLoop c net request2 ((c.retries + 1) % 2 ^ 64) c.retryMinInterval none none
            w.calls).2.1,
        { firstRequest := false,
          calls := (retryLoop c net request2 ((c.retries + 1) % 2 ^ 64) c.retryMinInterval none
            none w.calls).2.2 }) := by
  unfold doRequest
  rw [hp]

/-- With credentials, `doRequest` does not return the configuration error. -/
theorem doRequest_prepared_ne (base64 : String → String) (net : Nat → Request → Exchange)
    (c : Client) (request : Request) (w : World) (request2 : Request)
    (hp : prepare base64 c request = some request2) :
    (doRequest base64 net c request w).1 ≠ .ret none (some (.errorf noCredentialsMsg)) := by
  unfold doRequest
  rw [hp]
  simp only
  obtain ⟨hret, hleft⟩ := retryLoop_exit c net request2 ((c.retries + 1) % 2 ^ 64)
    c.retryMinInterval none none w.calls (Or.inl rfl)
  cases hx : (retryLoop c net request2 ((c.retries + 1) % 2 ^ 64) c.retryMinInterval none none
      w.calls).1 with
  | returned e =>
    obtain ⟨resp, he⟩ := hret e hx
    subst he
    simp only [finish, ne_eq, GoResult.ret.injEq, true_and, Option.some.injEq,
      GoError.errorf.injEq]
    exact noCredentialsMsg_ne_unexpected request2 resp
  | left response err =>
    cases response with
    | none =>
      rcases hleft err hx with he | ⟨msg, he⟩ <;> subst he <;> simp [finish]
    | some resp =>
      simp only [finish]
      split
      · simp only [ne_eq, GoResult.ret.injEq, true_and, Option.some.injEq, GoError.errorf.injEq]
        exact noCredentialsMsg_ne_couldNotPerform request2 resp _
      · split
        · simp only [ne_eq, GoResult.ret.injEq, true_and, Option.some.injEq,
            GoError.errorf.injEq]
          exact noCredentialsMsg_ne_couldNotPerform request2 resp _
        · simp

/-- C6: with a non-empty bearer token, whatever the username and password,
every request `doRequest` sends holds under `Authorization` the single value
`Bearer ` followed by the token, and so no basic-auth value. -/
theorem doRequest_bearer_only (base64 : String → String) (net : Nat → Request → Exchange)
    (c : Client) (request : Request) (w : World) (htoken : c.bearerToken ≠ "") :
    ∀ r ∈ sends (doRequest base64 net c request w).2.1,
      r.headerValues "Authorization" = ["Bearer " ++ c.bearerToken]
      ∧ ∀ user pass, "Basic " ++ base64 (user ++ ":" ++ pass)
          ∉ r.headerValues "Authorization" := by
  intro r hr
  have hp := doRequest_sends_mem base64 net c request w r hr
  simp only [prepare, htoken, ne_eq, not_false_eq_true, if_true, Option.some.injEq] at hp
  have hv : r.headerValues "Authorization" = ["Bearer " ++ c.bearerToken] := by
    rw [← hp]; exact headerValues_setHeader _ _ _
  refine ⟨hv, ?_⟩
  intro user pass hmem
  rw [hv, List.mem_singleton] at hmem
  exact bearer_ne_basic _ _ hmem.symm

/-- A client holding a token and basic-auth credentials sends `Bearer tok`. -/
theorem doRequest_bearer_only_witness :
    sends (doRequest sampleBase64 (alwaysOK "ok") { sampleClient with bearerToken := "tok" }
        sampleRequest freshWorld).2.1
      = [{ method := "GET", url := "http://broker/SEMP/v2/config/about",
           header := [("Authorization", "Bearer tok")] }]
    ∧ ∀ r ∈ sends (doRequest sampleBase64 (alwaysOK "ok")
          { sampleClient with bearerToken := "tok" } sampleRequest freshWorld).2.1,
        r.headerValues "Authorization" = ["Bearer " ++ "tok"]
        ∧ ∀ user pass, "Basic " ++ sampleBase64 (user ++ ":" ++ pass)
            ∉ r.headerValues "Authorization" :=
  ⟨by rfl, doRequest_bearer_only sampleBase64 (alwaysOK "ok")
    { sampleClient with bearerToken := "tok" } sampleRequest freshWorld (by decide)⟩

/-- C7: `doRequest` returns the configuration error exactly when the bearer
token and the username are both empty (the password is not looked at); in that
case no request is handed to the HTTP client.  With an empty token and a
non-empty username the basic-auth value of that username and password is set on
the request (line 226); every request handed to the HTTP client is the given
one, same method and URL, with that value as its only `Authorization` value;
and, unless `c.retries + 1` is 0 in `uint` arithmetic, such a request is handed
to the HTTP client, as the first effect after the pacing gate. -/
theorem doRequest_credentials (base64 : String → String) (net : Nat → Request → Exchange)
    (c : Client) (request : Request) (w : World) :
    ((doRequest base64 net c request w).1 = .ret none (some (.errorf noCredentialsMsg))
      ↔ c.bearerToken = "" ∧ c.username = "")
    ∧ (c.bearerToken = "" ∧ c.username = "" →
        sends (doRequest base64 net c request w).2.1 = []
        ∧ (doRequest base64 net c request w).2.2.calls = w.calls)
    ∧ (c.bearerToken = "" → c.username ≠ "" →
        prepare base64 c request
          = some ((if request.method ≠ "GET" then
              request.setHeader "Content-Type" "application/json" else request).SetBasicAuth
                base64 c.username c.password)
        ∧ (∀ r ∈ sends (doRequest base64 net c request w).2.1,
            r.headerValues "Authorization"
                = ["Basic " ++ base64 (c.username ++ ":" ++ c.password)]
              ∧ r.method = request.method ∧ r.url = request.url)
        ∧ ((c.retries + 1) % 2 ^ 64 ≠ 0 →
            ∃ r rest, (doRequest base64 net c request w).2.1
                = (if w.firstRequest then [] else [.gate]) ++ .send r :: rest
              ∧ r.headerValues "Authorization"
                = ["Basic " ++ base64 (c.username ++ ":" ++ c.password)]
              ∧ r.method = request.method ∧ r.url = request.url)) := by
  have hnone : c.bearerToken = "" ∧ c.username = "" → prepare base64 c request = none := by
    rintro ⟨h1, h2⟩; simp [prepare, h1, h2]
  refine ⟨⟨?_, ?_⟩, ?_, ?_⟩
  · intro hres
    by_contra hcred
    cases hp : prepare base64 c request with
    | none =>
      apply hcred
      by_cases h1 : c.bearerToken = ""
      · by_cases h2 : c.username = ""
        · exact ⟨h1, h2⟩
        · simp [prepare, h1, h2] at hp
      · simp [prepare, h1] at hp
    | some request2 => exact doRequest_prepared_ne base64 net c request w request2 hp hres
  · intro hcred
    unfold doRequest
    rw [hnone hcred]
  · intro hcred
    unfold doRequest
    rw [hnone hcred]
    by_cases hf : w.firstRequest <;> simp [hf, sends]
  · intro h1 h2
    have hprep : prepare base64 c request
        = some ((if request.method ≠ "GET" then
            request.setHeader "Content-Type" "application/json" else request).SetBasicAuth
              base64 c.username c.password) := by
      simp only [prepare, h1, h2, ne_eq, not_true_eq_false, not_false_eq_true, if_true, if_false]
    have hauth : ∀ r, prepare base64 c request = some r →
        r.headerValues "Authorization" = ["Basic " ++ base64 (c.username ++ ":" ++ c.password)]
          ∧ r.method = request.method ∧ r.url = request.url := by
      intro r hr
      refine ⟨?_, prepare_method_url base64 c request r hr⟩
      rw [hprep, Option.some.injEq] at hr
      rw [← hr]
      exact headerValues_setHeader _ _ _
    refine ⟨hprep, ?_, ?_⟩
    · intro r hr
      exact hauth r (doRequest_sends_mem base64 net c request w r hr)
    · intro hattempt
      obtain ⟨m, hm⟩ : ∃ m, (c.retries + 1) % 2 ^ 64 = m + 1 :=
        ⟨(c.retries + 1) % 2 ^ 64 - 1, by omega⟩
      obtain ⟨rest, hrest⟩ := retryLoop_head c net
        ((if request.method ≠ "GET" then
            request.setHeader "Content-Type" "application/json" else request).SetBasicAuth
              base64 c.username c.password) m c.retryMinInterval none none w.calls
      refine ⟨_, rest, ?_, hauth _ hprep⟩
      rw [doRequest_prepared base64 net c request w _ hprep, hm, hrest]

/-- A client with only a password gets the configuration error and sends
nothing; the sample client sends the request once, with its basic-auth value. -/
theorem doRequest_credentials_witness :
    (doRequest sampleBase64 always429 { sampleClient with username := "" } sampleRequest
        freshWorld).1 = .ret none (some (.errorf noCredentialsMsg))
    ∧ sends (doRequest sampleBase64 always429 { sampleClient with username := "" } sampleRequest
        freshWorld).2.1 = []
    ∧ (doRequest sampleBase64 (alwaysOK "ok") sampleClient sampleRequest freshWorld).2.1
      = [.send { method := "GET", url := "http://broker/SEMP/v2/config/about",
                 header := [("Authorization", "Basic b64(admin:secret)")] }]
    ∧ (∀ r ∈ sends (doRequest sampleBase64 (alwaysOK "ok") sampleClient sampleRequest
          freshWorld).2.1,
        r.headerValues "Authorization" = ["Basic " ++ sampleBase64 ("admin" ++ ":" ++ "secret")]
          ∧ r.method = sampleRequest.method ∧ r.url = sampleRequest.url)
    ∧ ∃ r rest, (doRequest sampleBase64 (alwaysOK "ok") sampleClient sampleRequest
          freshWorld).2.1
        = (if freshWorld.firstRequest then [] else [.gate]) ++ .send r :: rest
      ∧ r.headerValues "Authorization" = ["Basic " ++ sampleBase64 ("admin" ++ ":" ++ "secret")]
      ∧ r.method = sampleRequest.method ∧ r.url = sampleRequest.url :=
  ⟨(doRequest_credentials sampleBase64 always429 { sampleClient with username := "" }
      sampleRequest freshWorld).1.2 ⟨rfl, rfl⟩,
   ((doRequest_credentials sampleBase64 always429 { sampleClient with username := "" }
      sampleRequest freshWorld).2.1 ⟨rfl, rfl⟩).1,
   by rfl,
   ((doRequest_credentials sampleBase64 (alwaysOK "ok") sampleClient sampleRequest
      freshWorld).2.2 rfl (by decide)).2.1,
   ((doRequest_credentials sampleBase64 (alwaysOK "ok") sampleClient sampleRequest
      freshWorld).2.2 rfl (by decide)).2.2 (by decide)⟩

/-! ## Attempts and waits -/

/-- With a bearer token or a username the request is prepared. -/
theorem prepare_isSome (base64 : String → String) (c : Client) (request : Request)
    (hcred : c.bearerToken ≠ "" ∨ c.username ≠ "") :
    ∃ request2, prepare base64 c request = some request2 := by
  cases hp : prepare base64 c request with
  | some request2 => exact ⟨request2, rfl⟩
  | none =>
    exfalso
    by_cases h1 : c.bearerToken = ""
    · by_cases h2 : c.username = ""
      · rcases hcred with h | h
        · exact h h1
        · exact h h2
      · simp [prepare, h1, h2] at hp
    · simp [prepare, h1] at hp

theorem sends_gate (b : Bool) : sends (if b then [] else [Effect.gate]) = [] := by
  cases b <;> rfl

theorem sleeps_gate (b : Bool) : sleeps (if b then [] else [Effect.gate]) = [] := by
  cases b <;> rfl

/-- Below `2 ^ 62` nanoseconds the doubling of a wait does not wrap around. -/
theorem nextRetryWait_eq_min (c : Client) (d : Int) (h0 : 0 ≤ d) (h1 : d ≤ c.retryMaxInterval)
    (h2 : c.retryMaxInterval < 2 ^ 62) :
    nextRetryWait c d = min (2 * d) c.retryMaxInterval := by
  have hw : wrapInt64 (d * 2) = 2 * d := by
    unfold wrapInt64
    omega
  unfold nextRetryWait
  simp only [hw]
  split <;> omega

theorem iterate_nextRetryWait (c : Client) (h2 : c.retryMaxInterval < 2 ^ 62) (n : Nat) (d : Int)
    (h0 : 0 ≤ d) (h1 : d ≤ c.retryMaxInterval) :
    List.iterate (nextRetryWait c) d n
        = List.iterate (fun x => min (2 * x) c.retryMaxInterval) d n
    ∧ ∀ x ∈ List.iterate (nextRetryWait c) d n, x ≤ c.retryMaxInterval := by
  induction n generalizing d with
  | zero => simp [List.iterate]
  | succ n ih =>
    have hn := nextRetryWait_eq_min c d h0 h1 h2
    have hstep := ih (nextRetryWait c d) (by rw [hn]; omega) (by rw [hn]; omega)
    constructor
    · simp only [List.iterate, List.cons.injEq, true_and]
      rw [hstep.1, hn]
    · intro x hx
      simp only [List.iterate, List.mem_cons] at hx
      rcases hx with hx | hx
      · rw [hx]; exact h1
      · exact hstep.2 x hx

/-- C8 as the code has it: with credentials and `retries` below the largest
`uint`, `doRequest` makes at most `retries + 1` exchanges, whatever the
exchanges answer, and exactly `retries + 1` when every exchange answers 429. -/
theorem doRequest_attempts (base64 : String → String) (net : Nat → Request → Exchange)
    (c : Client) (request : Request) (w : World)
    (hcred : c.bearerToken ≠ "" ∨ c.username ≠ "") (hretries : c.retries + 1 < 2 ^ 64) :
    (sends (doRequest base64 net c request w).2.1).length ≤ c.retries + 1
    ∧ ((∀ i r, ∃ resp, net i r = .answer resp ∧ resp.statusCode = 429) →
        (sends (doRequest base64 net c request w).2.1).length = c.retries + 1) := by
  obtain ⟨request2, hp⟩ := prepare_isSome base64 c request hcred
  rw [doRequest_prepared base64 net c request w request2 hp]
  simp only [sends_append, sends_gate, List.nil_append, Nat.mod_eq_of_lt hretries]
  constructor
  · exact retryLoop_sends_le c net request2 _ _ _ _ _
  · intro h429
    exact (retryLoop_all_429 c net request2 (fun i => h429 i request2) _ _ _ _ _).1

/-- The sample client (3 retries) makes 4 exchanges when every one answers 429. -/
theorem doRequest_attempts_witness :
    (sends (doRequest sampleBase64 always429 sampleClient sampleRequest freshWorld).2.1).length
        ≤ sampleClient.retries + 1
    ∧ ((∀ i r, ∃ resp, always429 i r = .answer resp ∧ resp.statusCode = 429) →
        (sends (doRequest sampleBase64 always429 sampleClient sampleRequest
          freshWorld).2.1).length = sampleClient.retries + 1) :=
  doRequest_attempts sampleBase64 always429 sampleClient sampleRequest freshWorld
    (Or.inr (by decide)) (by decide)

/-- C8 as stated fails at the largest `uint`: with `retries = 2 ^ 64 - 1` the
sum `c.retries + 1` wraps to 0, so on a network that always answers 429 the
client with credentials makes no exchange at all, and `doRequest` returns
`(nil, nil)`. -/
theorem doRequest_attempts_counterexample :
    (∀ i r, ∃ resp, always429 i r = .answer resp ∧ resp.statusCode = 429)
    ∧ sends (doRequest sampleBase64 always429 { sampleClient with retries := 2 ^ 64 - 1 }
        sampleRequest freshWorld).2.1 = []
    ∧ (sends (doRequest sampleBase64 always429 { sampleClient with retries := 2 ^ 64 - 1 }
        sampleRequest freshWorld).2.1).length ≠ (2 ^ 64 - 1) + 1
    ∧ (doRequest sampleBase64 always429 { sampleClient with retries := 2 ^ 64 - 1 }
        sampleRequest freshWorld).1 = .ret none none :=
  ⟨fun _ _ => ⟨_, rfl, rfl⟩, by rfl, by decide, by rfl⟩

/-- C9 as the code has it: with credentials and
`0 ≤ retryMinInterval ≤ retryMaxInterval < 2 ^ 62` nanoseconds, no wait of
`doRequest` is longer than `retryMaxInterval`, whatever the exchanges answer;
and when every exchange answers 429 there is one wait per attempt, the first of
`retryMinInterval` and each later one the smaller of twice the previous wait and
`retryMaxInterval`. -/
theorem doRequest_waits (base64 : String → String) (net : Nat → Request → Exchange)
    (c : Client) (request : Request) (w : World)
    (hcred : c.bearerToken ≠ "" ∨ c.username ≠ "")
    (hmin : 0 ≤ c.retryMinInterval) (hle : c.retryMinInterval ≤ c.retryMaxInterval)
    (hmax : c.retryMaxInterval < 2 ^ 62) :
    (∀ d ∈ sleeps (doRequest base64 net c request w).2.1, d ≤ c.retryMaxInterval)
    ∧ ((∀ i r, ∃ resp, net i r = .answer resp ∧ resp.statusCode = 429) →
        sleeps (doRequest base64 net c request w).2.1
          = List.iterate (fun d => min (2 * d) c.retryMaxInterval) c.retryMinInterval
              ((c.retries + 1) % 2 ^ 64)) := by
  obtain ⟨request2, hp⟩ := prepare_isSome base64 c request hcred
  rw [doRequest_prepared base64 net c request w request2 hp]
  simp only [sleeps_append, sleeps_gate, List.nil_append]
  constructor
  · intro d hd
    rw [retryLoop_sleeps] at hd
    exact (iterate_nextRetryWait c hmax _ _ hmin hle).2 d hd
  · intro h429
    rw [(retryLoop_all_429 c net request2 (fun i => h429 i request2) _ _ _ _ _).2]
    exact (iterate_nextRetryWait c hmax _ _ hmin hle).1

/-- The sample client (1s to 10s, 3 retries) waits 1s, 2s, 4s and 8s. -/
theorem doRequest_waits_witness :
    (∀ d ∈ sleeps (doRequest sampleBase64 always429 sampleClient sampleRequest freshWorld).2.1,
      d ≤ sampleClient.retryMaxInterval)
    ∧ ((∀ i r, ∃ resp, always429 i r = .answer resp ∧ resp.statusCode = 429) →
        sleeps (doRequest sampleBase64 always429 sampleClient sampleRequest freshWorld).2.1
          = List.iterate (fun d => min (2 * d) sampleClient.retryMaxInterval)
              sampleClient.retryMinInterval ((sampleClient.retries + 1) % 2 ^ 64)) :=
  doRequest_waits sampleBase64 always429 sampleClient sampleRequest freshWorld
    (Or.inr (by decide)) (by decide) (by decide) (by decide)

/-- C9 as stated fails when `retryMinInterval` exceeds `retryMaxInterval`: with
20s and 10s the waits on a network that always answers 429 are 20s, 10s, 10s,
10s, so the first wait is longer than `retryMaxInterval`. -/
theorem doRequest_waits_counterexample :
    sleeps (doRequest sampleBase64 always429
        { sampleClient with retryMinInterval := 20000000000 } sampleRequest freshWorld).2.1
      = [20000000000, 10000000000, 10000000000, 10000000000]
    ∧ ¬ ∀ d ∈ sleeps (doRequest sampleBase64 always429
          { sampleClient with retryMinInterval := 20000000000 } sampleRequest freshWorld).2.1,
        d ≤ ({ sampleClient with retryMinInterval := 20000000000 } : Client).retryMaxInterval :=
  ⟨by rfl, by decide⟩

/-! ## Leaving the loop on 200 and on 400 -/

/-- When the exchange number `k` of the loop takes place and answers 200 or
400, it is the last effect of the loop, and the loop is left with that
response. -/
theorem retryLoop_terminal (c : Client) (net : Nat → Request → Exchange) (request : Request)
    (resp : Response) (hs : resp.statusCode = 200 ∨ resp.statusCode = 400)
    (n : Nat) (retryWait : Int) (response : Option Response) (err : Option GoError)
    (calls k : Nat)
    (hk : k < (sends (retryLoop c net request n retryWait response err calls).2.1).length)
    (hnet : net (calls + k) request = .answer resp) :
    (∃ before, (retryLoop c net request n retryWait response err calls).2.1
        = before ++ [.send request] ∧ (sends before).length = k)
    ∧ (retryLoop c net request n retryWait response err calls).1 = .left (some resp) none := by
  induction n generalizing retryWait response err calls k with
  | zero => simp [retryLoop, sends] at hk
  | succ n ih =>
    rcases retryLoop_cases net request calls with ⟨msg, h⟩ | ⟨r, h, hr⟩ | ⟨r, h, hr⟩
      | ⟨r, h, h1, h2, h3⟩
    · rw [retryLoop_fail c net request n retryWait response err calls msg h] at hk ⊢
      cases k with
      | zero => rw [Nat.add_zero, h] at hnet; cases hnet
      | succ k =>
        simp only [sends, List.length_cons, Nat.add_lt_add_iff_right] at hk
        have hnet2 : net (calls + 1 + k) request = .answer resp := by
          rw [← hnet]; congr 1; omega
        obtain ⟨⟨before, hb, hlen⟩, hexit⟩ := ih _ _ _ (calls + 1) k hk hnet2
        refine ⟨⟨.send request :: .sleep retryWait :: before, ?_, ?_⟩, hexit⟩
        · simp only [hb, List.cons_append]
        · simp only [sends, List.length_cons, hlen]
    · rw [retryLoop_429 c net request n retryWait response err calls r h hr] at hk ⊢
      cases k with
      | zero =>
        rw [Nat.add_zero, h] at hnet
        cases hnet
        omega
      | succ k =>
        simp only [sends, List.length_cons, Nat.add_lt_add_iff_right] at hk
        have hnet2 : net (calls + 1 + k) request = .answer resp := by
          rw [← hnet]; congr 1; omega
        obtain ⟨⟨before, hb, hlen⟩, hexit⟩ := ih _ _ _ (calls + 1) k hk hnet2
        refine ⟨⟨.send request :: .sleep retryWait :: before, ?_, ?_⟩, hexit⟩
        · simp only [hb, List.cons_append]
        · simp only [sends, List.length_cons, hlen]
    · rw [retryLoop_stop c net request n retryWait response err calls r h hr] at hk ⊢
      simp only [sends, List.length_cons, List.length_nil, Nat.zero_add, Nat.lt_one_iff] at hk
      subst hk
      rw [Nat.add_zero, h] at hnet
      cases hnet
      exact ⟨⟨[], rfl, rfl⟩, rfl⟩
    · rw [retryLoop_other c net request n retryWait response err calls r h h1 h2 h3] at hk ⊢
      simp only [sends, List.length_cons, List.length_nil, Nat.zero_add, Nat.lt_one_iff] at hk
      subst hk
      rw [Nat.add_zero, h] at hnet
      cases hnet
      omega

/-- C10 as the code has it: when the exchange number `k` of a call of
`doRequest` takes place and answers 200 or 400, that exchange is the last
effect of the call (no wait and no exchange follows); the call returns the bytes
read from that response and no error when the body stream ended without a read
error, and the error of line 277, without the bytes, when it did not. -/
theorem doRequest_stops_on_200_400 (base64 : String → String)
    (net : Nat → Request → Exchange) (c : Client) (request : Request) (w : World)
    (request2 : Request) (resp : Response) (k : Nat)
    (hp : prepare base64 c request = some request2)
    (hk : k < (sends (doRequest base64 net c request w).2.1).length)
    (hnet : net (w.calls + k) request2 = .answer resp)
    (hs : resp.statusCode = 200 ∨ resp.statusCode = 400) :
    (∃ before, (doRequest base64 net c request w).2.1 = before ++ [.send request2]
        ∧ (sends before).length = k)
    ∧ (resp.readErr = false →
        (doRequest base64 net c request w).1 = .ret (some resp.body) none)
    ∧ (resp.readErr = true →
        (doRequest base64 net c request w).1
          = .ret none (some (.errorf (couldNotPerformMsg request2 resp resp.body)))) := by
  rw [doRequest_prepared base64 net c request w request2 hp] at hk ⊢
  simp only [sends_append, sends_gate, List.nil_append] at hk
  obtain ⟨⟨before, hb, hlen⟩, hexit⟩ :=
    retryLoop_terminal c net request2 resp hs _ _ _ _ _ k hk hnet
  refine ⟨⟨(if w.firstRequest then [] else [.gate]) ++ before, ?_, ?_⟩, ?_, ?_⟩
  · simp only [hb, List.append_assoc]
  · simp only [sends_append, sends_gate, List.nil_append, hlen]
  · intro hread
    simp only
    rw [hexit]
    rcases hs with hs | hs <;> simp [finish, hs, hread]
  · intro hread
    simp only
    rw [hexit]
    rcases hs with hs | hs <;> simp [finish, hs, hread]

/-- The first exchange of the sample client answers 200 with body `ok`: the
call sends once, waits never and returns `ok`. -/
theorem doRequest_stops_on_200_400_witness :
    (∃ before, (doRequest sampleBase64 (alwaysOK "ok") sampleClient sampleRequest freshWorld).2.1
        = before ++ [.send (sampleRequest.SetBasicAuth sampleBase64 "admin" "secret")]
        ∧ (sends before).length = 0)
    ∧ (false = false →
        (doRequest sampleBase64 (alwaysOK "ok") sampleClient sampleRequest freshWorld).1
          = .ret (some "ok") none)
    ∧ (false = true →
        (doRequest sampleBase64 (alwaysOK "ok") sampleClient sampleRequest freshWorld).1
          = .ret none (some (.errorf (couldNotPerformMsg
              (sampleRequest.SetBasicAuth sampleBase64 "admin" "secret")
              { statusCode := 200, status := "200 OK", body := "ok", readErr := false } "ok")))) :=
  doRequest_stops_on_200_400 sampleBase64 (alwaysOK "ok") sampleClient sampleRequest freshWorld
    (sampleRequest.SetBasicAuth sampleBase64 "admin" "secret")
    { statusCode := 200, status := "200 OK", body := "ok", readErr := false } 0
    (by rfl) (by decide) (by rfl) (Or.inl rfl)

/-- C10 as stated fails when the body stream of the answer breaks: the
exchange answers 200, the read of line 272 hands back the bytes `partial`, the
drain of line 276 reports the read error, and `doRequest` returns the error of
line 277 instead of the bytes. -/
theorem doRequest_stops_on_200_400_counterexample :
    brokenBody 0 (sampleRequest.SetBasicAuth sampleBase64 "admin" "secret")
      = .answer { statusCode := 200, status := "200 OK", body := "partial", readErr := true }
    ∧ sends (doRequest sampleBase64 brokenBody sampleClient sampleRequest freshWorld).2.1
      = [sampleRequest.SetBasicAuth sampleBase64 "admin" "secret"]
    ∧ (doRequest sampleBase64 brokenBody sampleClient sampleRequest freshWorld).1
      = .ret none (some (.errorf ("could not perform request: status 200 (200 OK) during GET to "
          ++ "http://broker/SEMP/v2/config/about, response body:\npartial")))
    ∧ (doRequest sampleBase64 brokenBody sampleClient sampleRequest freshWorld).1
      ≠ .ret (some "partial") none :=
  ⟨rfl, by rfl, by rfl, by simp [doRequest, prepare, sampleClient, retryLoop, brokenBody, finish]⟩

/-! ## The exchange number `k` of a call -/

/-- When the exchange number `k` of the loop takes place, the loop has gone
through `k` iterations that each sent and waited, and goes on as the loop
started at that exchange with at least one attempt left. -/
theorem retryLoop_split (c : Client) (net : Nat → Request → Exchange) (request : Request)
    (k n : Nat) (retryWait : Int) (response : Option Response) (err : Option GoError)
    (calls : Nat)
    (hk : k < (sends (retryLoop c net request n retryWait response err calls).2.1).length) :
    ∃ before m rw response2 err2,
      (retryLoop c net request n retryWait response err calls).2.1
        = before ++ (retryLoop c net request (m + 1) rw response2 err2 (calls + k)).2.1
      ∧ (retryLoop c net request n retryWait response err calls).1
        = (retryLoop c net request (m + 1) rw response2 err2 (calls + k)).1
      ∧ (sends before).length = k ∧ (sleeps before).length = k ∧ n = k + m + 1 := by
  induction k generalizing n retryWait response err calls with
  | zero =>
    cases n with
    | zero => simp [retryLoop, sends] at hk
    | succ n => exact ⟨[], n, retryWait, response, err, rfl, rfl, rfl, rfl, by omega⟩
  | succ k ih =>
    cases n with
    | zero => simp [retryLoop, sends] at hk
    | succ n =>
      rcases retryLoop_cases net request calls with ⟨msg, h⟩ | ⟨r, h, hr⟩ | ⟨r, h, hr⟩
        | ⟨r, h, h1, h2, h3⟩
      · rw [retryLoop_fail c net request n retryWait response err calls msg h] at hk ⊢
        simp only [sends, List.length_cons, Nat.add_lt_add_iff_right] at hk
        obtain ⟨before, m, rw, response2, err2, hb, he, hs, hsl, hn⟩ := ih n _ _ _ (calls + 1) hk
        have hc : calls + 1 + k = calls + (k + 1) := by omega
        rw [hc] at hb he
        exact ⟨.send request :: .sleep retryWait :: before, m, rw, response2, err2,
          by simp only [hb, List.cons_append], he, by simp only [sends, List.length_cons, hs],
          by simp only [sleeps, List.length_cons, hsl], by omega⟩
      · rw [retryLoop_429 c net request n retryWait response err calls r h hr] at hk ⊢
        simp only [sends, List.length_cons, Nat.add_lt_add_iff_right] at hk
        obtain ⟨before, m, rw, response2, err2, hb, he, hs, hsl, hn⟩ := ih n _ _ _ (calls + 1) hk
        have hc : calls + 1 + k = calls + (k + 1) := by omega
        rw [hc] at hb he
        exact ⟨.send request :: .sleep retryWait :: before, m, rw, response2, err2,
          by simp only [hb, List.cons_append], he, by simp only [sends, List.length_cons, hs],
          by simp only [sleeps, List.length_cons, hsl], by omega⟩
      · rw [retryLoop_stop c net request n retryWait response err calls r h hr] at hk
        simp [sends] at hk
      · rw [retryLoop_other c net request n retryWait response err calls r h h1 h2 h3] at hk
        simp [sends] at hk

theorem Contains.trans {a b p : String} (h1 : Contains a b) (h2 : Contains b p) :
    Contains a p :=
  List.IsInfix.trans h2 h1

/-! ## Any other status -/

/-- C11: when the exchange number `k` of a call of `doRequest` takes place
and answers with a status other than 200, 400 and 429, that exchange is the
last effect of the call (no wait and no exchange follows) and the call returns
no body and an error whose text contains the status code, the status line with
its reason phrase, the request method, the request URL and the response body. -/
theorem doRequest_unexpected_status (base64 : String → String)
    (net : Nat → Request → Exchange) (c : Client) (request : Request) (w : World)
    (request2 : Request) (resp : Response) (k : Nat)
    (hp : prepare base64 c request = some request2)
    (hk : k < (sends (doRequest base64 net c request w).2.1).length)
    (hnet : net (w.calls + k) request2 = .answer resp)
    (h200 : resp.statusCode ≠ 200) (h400 : resp.statusCode ≠ 400)
    (h429 : resp.statusCode ≠ 429) :
    (∃ before, (doRequest base64 net c request w).2.1 = before ++ [.send request2]
        ∧ (sends before).length = k ∧ (sleeps before).length = k)
    ∧ ∃ err, (doRequest base64 net c request w).1 = .ret none (some err)
        ∧ Contains err.Error (toString resp.statusCode)
        ∧ (∀ reason, Contains resp.status reason → Contains err.Error reason)
        ∧ Contains err.Error request.method ∧ Contains err.Error request.url
        ∧ Contains err.Error resp.body := by
  obtain ⟨hm, hu⟩ := prepare_method_url base64 c request request2 hp
  rw [doRequest_prepared base64 net c request w request2 hp] at hk ⊢
  simp only [sends_append, sends_gate, List.nil_append] at hk
  obtain ⟨before, m, rw, response2, err2, hb, he, hs, hsl, _⟩ :=
    retryLoop_split c net request2 k _ _ _ _ _ hk
  rw [retryLoop_other c net request2 m rw response2 err2 (w.calls + k) resp hnet h200 h400 h429]
    at hb he
  refine ⟨⟨(if w.firstRequest then [] else [.gate]) ++ before, ?_, ?_, ?_⟩,
    .errorf (unexpectedStatusMsg request2 resp), ?_, ?_, ?_, ?_, ?_, ?_⟩
  · simp only [hb, List.append_assoc]
  · simp only [sends_append, sends_gate, List.nil_append, hs]
  · simp only [sleeps_append, sleeps_gate, List.nil_append, hsl]
  · simp only
    rw [he]
    rfl
  · show Contains (unexpectedStatusMsg request2 resp) _
    unfold unexpectedStatusMsg
    repeat (first | exact Contains.right _ (Contains.self _) | refine Contains.left _ ?_)
  · intro reason hr
    refine Contains.trans ?_ hr
    show Contains (unexpectedStatusMsg request2 resp) _
    unfold unexpectedStatusMsg
    repeat (first | exact Contains.right _ (Contains.self _) | refine Contains.left _ ?_)
  · rw [← hm]
    show Contains (unexpectedStatusMsg request2 resp) _
    unfold unexpectedStatusMsg
    repeat (first | exact Contains.right _ (Contains.self _) | refine Contains.left _ ?_)
  · rw [← hu]
    show Contains (unexpectedStatusMsg request2 resp) _
    unfold unexpectedStatusMsg
    repeat (first | exact Contains.right _ (Contains.self _) | refine Contains.left _ ?_)
  · exact Contains.right _ (Contains.self _)

/-- The first exchange of the sample client answers `404 Not Found` with the
body `gone`: one exchange, no wait, and an error that shows all of it. -/
theorem doRequest_unexpected_status_witness :
    (doRequest sampleBase64 always404 sampleClient sampleRequest freshWorld).2.1
      = [.send (sampleRequest.SetBasicAuth sampleBase64 "admin" "secret")]
    ∧ (doRequest sampleBase64 always404 sampleClient sampleRequest freshWorld).1
      = .ret none (some (.errorf ("unexpected status 404 (404 Not Found) during GET to "
          ++ "http://broker/SEMP/v2/config/about, body:\ngone")))
    ∧ ((∃ before, (doRequest sampleBase64 always404 sampleClient sampleRequest freshWorld).2.1
          = before ++ [.send (sampleRequest.SetBasicAuth sampleBase64 "admin" "secret")]
          ∧ (sends before).length = 0 ∧ (sleeps before).length = 0)
      ∧ ∃ err, (doRequest sampleBase64 always404 sampleClient sampleRequest freshWorld).1
          = .ret none (some err)
          ∧ Contains err.Error (toString 404)
          ∧ (∀ reason, Contains "404 Not Found" reason → Contains err.Error reason)
          ∧ Contains err.Error sampleRequest.method ∧ Contains err.Error sampleRequest.url
          ∧ Contains err.Error "gone") :=
  ⟨by rfl, by rfl,
   doRequest_unexpected_status sampleBase64 always404 sampleClient sampleRequest freshWorld
    (sampleRequest.SetBasicAuth sampleBase64 "admin" "secret")
    { statusCode := 404, status := "404 Not Found", body := "gone", readErr := false } 0
    (by rfl) (by decide) (by rfl) (by decide) (by decide) (by decide)⟩

/-! ## Running out of attempts -/

/-- When every exchange fails or answers 429, the loop started with `n + 1`
attempts makes them all, waits after each, and is left with what the last
exchange gave: its error and a nil response, or its response with the body
already read. -/
theorem retryLoop_exhausted (c : Client) (net : Nat → Request → Exchange) (request : Request)
    (hretry : ∀ i, (∃ msg, net i request = .fail msg)
      ∨ ∃ resp, net i request = .answer resp ∧ resp.statusCode = 429)
    (n : Nat) (retryWait : Int) (response : Option Response) (err : Option GoError) (calls : Nat) :
    (sends (retryLoop c net request (n + 1) retryWait response err calls).2.1).length = n + 1
    ∧ (sleeps (retryLoop c net request (n + 1) retryWait response err calls).2.1).length = n + 1
    ∧ (∀ msg, net (calls + n) request = .fail msg →
        (retryLoop c net request (n + 1) retryWait response err calls).1
          = .left none (some (.external msg)))
    ∧ (∀ resp, net (calls + n) request = .answer resp →
        (retryLoop c net request (n + 1) retryWait response err calls).1
          = .left (some resp.afterReadAll) none) := by
  induction n generalizing retryWait response err calls with
  | zero =>
    rcases hretry calls with ⟨msg, h⟩ | ⟨r, h, hr⟩
    · rw [retryLoop_fail c net request 0 retryWait response err calls msg h]
      refine ⟨by simp [retryLoop, sends], by simp [retryLoop, sleeps], ?_, ?_⟩
      · intro msg2 h2
        rw [Nat.add_zero, h] at h2
        cases h2
        rfl
      · intro resp h2
        rw [Nat.add_zero, h] at h2
        cases h2
    · rw [retryLoop_429 c net request 0 retryWait response err calls r h hr]
      refine ⟨by simp [retryLoop, sends], by simp [retryLoop, sleeps], ?_, ?_⟩
      · intro msg2 h2
        rw [Nat.add_zero, h] at h2
        cases h2
      · intro resp h2
        rw [Nat.add_zero, h] at h2
        cases h2
        rfl
  | succ n ih =>
    have hc : calls + 1 + n = calls + (n + 1) := by omega
    rcases hretry calls with ⟨msg, h⟩ | ⟨r, h, hr⟩
    · rw [retryLoop_fail c net request (n + 1) retryWait response err calls msg h]
      obtain ⟨h1, h2, h3, h4⟩ := ih (nextRetryWait c retryWait) none (some (.external msg))
        (calls + 1)
      rw [hc] at h3 h4
      exact ⟨by simp only [sends, List.length_cons, h1],
        by simp only [sleeps, List.length_cons, h2], h3, h4⟩
    · rw [retryLoop_429 c net request (n + 1) retryWait response err calls r h hr]
      obtain ⟨h1, h2, h3, h4⟩ := ih (nextRetryWait c retryWait) (some r.afterReadAll) none
        (calls + 1)
      rw [hc] at h3 h4
      exact ⟨by simp only [sends, List.length_cons, h1],
        by simp only [sleeps, List.length_cons, h2], h3, h4⟩

/-- What `doRequest` returns when every exchange fails or answers 429 (and
`retries + 1` does not wrap around): with credentials it makes `retries + 1`
exchanges and as many waits and returns no body; the error is the error of the
last exchange when that one failed, and otherwise the error of line 274, built
from the status of the last response and from the empty rest of its body. -/
theorem doRequest_exhausted (base64 : String → String) (net : Nat → Request → Exchange)
    (c : Client) (request : Request) (w : World) (request2 : Request)
    (hp : prepare base64 c request = some request2) (hretries : c.retries + 1 < 2 ^ 64)
    (hretry : ∀ i, (∃ msg, net i request2 = .fail msg)
      ∨ ∃ resp, net i request2 = .answer resp ∧ resp.statusCode = 429) :
    (sends (doRequest base64 net c request w).2.1).length = c.retries + 1
    ∧ (sleeps (doRequest base64 net c request w).2.1).length = c.retries + 1
    ∧ (∀ msg, net (w.calls + c.retries) request2 = .fail msg →
        (doRequest base64 net c request w).1 = .ret none (some (.external msg)))
    ∧ (∀ resp, net (w.calls + c.retries) request2 = .answer resp →
        (doRequest base64 net c request w).1
          = .ret none (some (.errorf (couldNotPerformMsg request2 resp "")))) := by
  rw [doRequest_prepared base64 net c request w request2 hp]
  simp only [sends_append, sends_gate, sleeps_append, sleeps_gate, List.nil_append,
    Nat.mod_eq_of_lt hretries]
  obtain ⟨h1, h2, h3, h4⟩ := retryLoop_exhausted c net request2 hretry c.retries
    c.retryMinInterval none none w.calls
  refine ⟨h1, h2, ?_, ?_⟩
  · intro msg hm
    rw [h3 msg hm]
    rfl
  · intro resp hm
    rw [h4 resp hm]
    obtain ⟨r, hr, hs⟩ : ∃ r, net (w.calls + c.retries) request2 = .answer r
        ∧ r.statusCode = 429 := by
      rcases hretry (w.calls + c.retries) with ⟨msg, h⟩ | h
      · rw [h] at hm; cases hm
      · exact h
    rw [hr] at hm
    cases hm
    simp [finish, Response.afterReadAll, hs, couldNotPerformMsg]

set_option maxRecDepth 20000 in
/-- C19 at the failing input: the sample client (3 retries) on a network whose
every exchange answers `429 Too Many Requests` with the body `slow down` makes 4
exchanges and returns no body and the error of line 274; its text shows the
status 429, ends right after `response body:` and does not contain the body of
the last response, which line 253 has already read and dropped. -/
theorem doRequest_exhausted_drops_body :
    (sends (doRequest sampleBase64 always429 sampleClient sampleRequest freshWorld).2.1).length
      = 4
    ∧ (doRequest sampleBase64 always429 sampleClient sampleRequest freshWorld).1
      = .ret none (some (.errorf ("could not perform request: status 429 "
          ++ "(429 Too Many Requests) during GET to http://broker/SEMP/v2/config/about, "
          ++ "response body:\n")))
    ∧ ¬ Contains ("could not perform request: status 429 "
          ++ "(429 Too Many Requests) during GET to http://broker/SEMP/v2/config/about, "
          ++ "response body:\n") "slow down" :=
  ⟨by rfl, by rfl, by unfold Contains; decide⟩

/-! ## A failed exchange -/

/-- C20 as the code has it: when the exchange number `k` of a call of
`doRequest` takes place and fails with an error, whatever the error, the call
waits right after it; while attempts remain a further exchange follows the
wait, and when the failed exchange was the last attempt the call ends after the
wait and returns that error. -/
theorem doRequest_retries_after_error (base64 : String → String)
    (net : Nat → Request → Exchange) (c : Client) (request : Request) (w : World)
    (request2 : Request) (msg : String) (k : Nat)
    (hp : prepare base64 c request = some request2)
    (hk : k < (sends (doRequest base64 net c request w).2.1).length)
    (hnet : net (w.calls + k) request2 = .fail msg) :
    ∃ before d after,
      (doRequest base64 net c request w).2.1 = before ++ .send request2 :: .sleep d :: after
      ∧ (sends before).length = k
      ∧ (k + 1 < (c.retries + 1) % 2 ^ 64 → ∃ rest, after = .send request2 :: rest)
      ∧ (k + 1 = (c.retries + 1) % 2 ^ 64 →
          after = [] ∧ (doRequest base64 net c request w).1 = .ret none (some (.external msg))) := by
  rw [doRequest_prepared base64 net c request w request2 hp] at hk ⊢
  simp only [sends_append, sends_gate, List.nil_append] at hk
  obtain ⟨before, m, rw, response2, err2, hb, he, hs, _, hn⟩ :=
    retryLoop_split c net request2 k _ _ _ _ _ hk
  rw [retryLoop_fail c net request2 m rw response2 err2 (w.calls + k) msg hnet] at hb he
  simp only at hb he
  refine ⟨(if w.firstRequest then [] else [.gate]) ++ before, rw,
    (retryLoop c net request2 m (nextRetryWait c rw) none (some (.external msg))
      (w.calls + k + 1)).2.1, ?_, ?_, ?_, ?_⟩
  · simp only [hb, List.append_assoc]
  · simp only [sends_append, sends_gate, List.nil_append, hs]
  · intro hlt
    obtain ⟨m2, hm2⟩ : ∃ m2, m = m2 + 1 := ⟨m - 1, by omega⟩
    subst hm2
    exact retryLoop_head c net request2 m2 _ _ _ _
  · intro heq
    have hm0 : m = 0 := by omega
    subst hm0
    refine ⟨rfl, ?_⟩
    simp only
    rw [he]
    rfl

/-- The first exchange of the sample client is cancelled: a wait of 1s and a
second exchange follow. -/
theorem doRequest_retries_after_error_witness :
    ∃ before d after,
      (doRequest sampleBase64 alwaysCanceled sampleClient sampleRequest freshWorld).2.1
        = before ++ .send (sampleRequest.SetBasicAuth sampleBase64 "admin" "secret")
            :: .sleep d :: after
      ∧ (sends before).length = 0
      ∧ (0 + 1 < (sampleClient.retries + 1) % 2 ^ 64 →
          ∃ rest, after = .send (sampleRequest.SetBasicAuth sampleBase64 "admin" "secret") :: rest)
      ∧ (0 + 1 = (sampleClient.retries + 1) % 2 ^ 64 →
          after = [] ∧ (doRequest sampleBase64 alwaysCanceled sampleClient sampleRequest
            freshWorld).1 = .ret none (some (.external "context canceled"))) :=
  doRequest_retries_after_error sampleBase64 alwaysCanceled sampleClient sampleRequest freshWorld
    (sampleRequest.SetBasicAuth sampleBase64 "admin" "secret") "context canceled" 0
    (by rfl) (by decide) (by rfl)

/-- C20 as stated fails: on a network whose every exchange fails with
`context canceled` the sample client (3 retries, waits from 1s) does not return
after the first failure; it makes 4 exchanges, waits 1s, 2s, 4s and 8s, and
then returns the error. -/
theorem doRequest_retries_after_error_counterexample :
    alwaysCanceled 0 (sampleRequest.SetBasicAuth sampleBase64 "admin" "secret")
      = .fail "context canceled"
    ∧ (doRequest sampleBase64 alwaysCanceled sampleClient sampleRequest freshWorld).2.1
      = [.send (sampleRequest.SetBasicAuth sampleBase64 "admin" "secret"), .sleep 1000000000,
         .send (sampleRequest.SetBasicAuth sampleBase64 "admin" "secret"), .sleep 2000000000,
         .send (sampleRequest.SetBasicAuth sampleBase64 "admin" "secret"), .sleep 4000000000,
         .send (sampleRequest.SetBasicAuth sampleBase64 "admin" "secret"), .sleep 8000000000]
    ∧ (doRequest sampleBase64 alwaysCanceled sampleClient sampleRequest freshWorld).1
      = .ret none (some (.external "context canceled")) :=
  ⟨rfl, by rfl, by rfl⟩

/-! ## The retrying transport -/

/-- From the counter `retries`, with `fuel` iterations left up to `RetryCount`:
when the call number `j` is the first whose outcome is not to be retried, the
loop makes the calls up to that one, or `fuel` calls when that one is out of
reach, and hands back the outcome of the last call made. -/
theorem roundTripLoop_attempts (transport : Nat → Request → Exchange) (req : Request)
    (j : Nat) (hj : shouldRetry (transport j req) = false)
    (fuel retries : Nat) (hfuel : retries + fuel = RetryCount) (hle : retries ≤ j)
    (hbefore : ∀ i, retries ≤ i → i < j → shouldRetry (transport i req) = true) :
    (sends (roundTripLoop transport req fuel retries (transport retries req)).2).length
      = min fuel (j - retries)
    ∧ (roundTripLoop transport req fuel retries (transport retries req)).2
      = retryEffects req (min fuel (j - retries)) retries
    ∧ (j ≤ RetryCount →
        (roundTripLoop transport req fuel retries (transport retries req)).1
          = transport j req) := by
  induction fuel generalizing retries with
  | zero =>
    refine ⟨by simp [roundTripLoop, sends], by simp [roundTripLoop, retryEffects], ?_⟩
    intro hjle
    have : j = retries := by omega
    subst this
    rfl
  | succ fuel ih =>
    by_cases hjr : j = retries
    · subst hjr
      simp [roundTripLoop, hj, sends, retryEffects]
    · have hlt : retries < j := by omega
      have hr : shouldRetry (transport retries req) = true := hbefore retries (Nat.le_refl _) hlt
      have hcount : retries < RetryCount := by omega
      obtain ⟨h1, h2, h3⟩ := ih (retries + 1) (by omega) (by omega)
        (fun i hi hij => hbefore i (by omega) hij)
      have hmin : min (fuel + 1) (j - retries) = min fuel (j - (retries + 1)) + 1 := by omega
      have hloop : roundTripLoop transport req (fuel + 1) retries (transport retries req)
          = ((roundTripLoop transport req fuel (retries + 1) (transport (retries + 1) req)).1,
            .sleep (backoff retries) :: .send req ::
              (roundTripLoop transport req fuel (retries + 1)
                (transport (retries + 1) req)).2) := by
        simp only [roundTripLoop, hr, hcount, and_self, if_true]
      rw [hloop, hmin]
      refine ⟨?_, ?_, h3⟩
      · simp only [sends, List.length_cons, h1]
      · simp only [retryEffects, h2]

/-- From the counter `retries`, when every call up to number `RetryCount` is to
be retried, the loop uses up its iterations and hands back the outcome of the
call number `RetryCount`. -/
theorem roundTripLoop_all (transport : Nat → Request → Exchange) (req : Request)
    (hall : ∀ i, i ≤ RetryCount → shouldRetry (transport i req) = true)
    (fuel retries : Nat) (hfuel : retries + fuel = RetryCount) :
    (roundTripLoop transport req fuel retries (transport retries req)).2
      = retryEffects req fuel retries
    ∧ (roundTripLoop transport req fuel retries (transport retries req)).1
      = transport RetryCount req := by
  induction fuel generalizing retries with
  | zero =>
    have : retries = RetryCount := by omega
    subst this
    exact ⟨rfl, rfl⟩
  | succ fuel ih =>
    have hr : shouldRetry (transport retries req) = true := hall retries (by omega)
    have hcount : retries < RetryCount := by omega
    obtain ⟨h1, h2⟩ := ih (retries + 1) (by omega)
    simp only [roundTripLoop, hr, hcount, and_self, if_true, h1, h2, retryEffects]

theorem sends_retryEffects (req : Request) (count n : Nat) :
    (sends (retryEffects req count n)).length = count := by
  induction count generalizing n with
  | zero => rfl
  | succ count ih => simp [retryEffects, sends, ih]

theorem sleeps_retryEffects (req : Request) (count n : Nat) :
    sleeps (retryEffects req count n) = (List.range' n count).map backoff := by
  induction count generalizing n with
  | zero => rfl
  | succ count ih => simp [retryEffects, sleeps, ih, List.range']

/-- C12 as the code has it: `RoundTrip` makes a first call and up to
`RetryCount` = 6 retries, 7 calls at most.  When the call at position `j + 1`
is the first whose outcome is neither an error nor a 502, 503 or 504 answer, it
makes `min 7 (j + 1)` calls, and hands back that outcome when `j + 1 ≤ 7`; a
first outcome of that kind is handed back after one call; and when the first 7
outcomes are all errors or 502, 503, 504 answers it makes 7 calls and hands
back the seventh outcome. -/
theorem RoundTrip_attempts (transport : Nat → Request → Exchange) (req : Request) :
    (∀ j, (∀ i, i < j → shouldRetry (transport i req) = true) →
        shouldRetry (transport j req) = false →
        (sends (RoundTrip transport req).2).length = min (RetryCount + 1) (j + 1)
        ∧ (j ≤ RetryCount → (RoundTrip transport req).1 = transport j req))
    ∧ (shouldRetry (transport 0 req) = false →
        (RoundTrip transport req).2 = [.send req]
        ∧ (RoundTrip transport req).1 = transport 0 req)
    ∧ ((∀ i, i ≤ RetryCount → shouldRetry (transport i req) = true) →
        (sends (RoundTrip transport req).2).length = RetryCount + 1
        ∧ (RoundTrip transport req).1 = transport RetryCount req) := by
  refine ⟨?_, ?_, ?_⟩
  · intro j hbefore hj
    obtain ⟨h1, _, h3⟩ := roundTripLoop_attempts transport req j hj RetryCount 0
      (Nat.zero_add _) (Nat.zero_le _) (fun i _ hij => hbefore i hij)
    refine ⟨?_, h3⟩
    simp only [RoundTrip, sends, List.length_cons, h1]
    omega
  · intro h0
    obtain ⟨_, h2, h3⟩ := roundTripLoop_attempts transport req 0 h0 RetryCount 0
      (Nat.zero_add _) (Nat.zero_le _) (fun i _ hij => absurd hij (Nat.not_lt_zero _))
    refine ⟨?_, h3 (Nat.zero_le _)⟩
    simp only [RoundTrip, h2]
    rfl
  · intro hall
    obtain ⟨h1, h2⟩ := roundTripLoop_all transport req hall RetryCount 0 (Nat.zero_add _)
    refine ⟨?_, h2⟩
    show (sends (.send req :: (roundTripLoop transport req RetryCount 0 (transport 0 req)).2)).length
      = RetryCount + 1
    rw [h1, sends, List.length_cons, sends_retryEffects]

/-- A round-tripper that answers 200 at once is called once; one that always
answers 503 is called 7 times. -/
theorem RoundTrip_attempts_witness :
    ((RoundTrip (alwaysOK "ok") sampleRequest).2 = [.send sampleRequest]
      ∧ (RoundTrip (alwaysOK "ok") sampleRequest).1 = alwaysOK "ok" 0 sampleRequest)
    ∧ (sends (RoundTrip always503 sampleRequest).2).length = RetryCount + 1
      ∧ (RoundTrip always503 sampleRequest).1 = always503 RetryCount sampleRequest :=
  ⟨(RoundTrip_attempts (alwaysOK "ok") sampleRequest).2.1 (by rfl),
   (RoundTrip_attempts always503 sampleRequest).2.2 (fun _ _ => by rfl)⟩

/-- C12 as stated fails: when the first six calls answer 503 and the seventh
answers 200, the first outcome that is not transient is at position `k = 7`;
`RoundTrip` makes 7 calls and hands back the 200 answer, and 7 is not
`min 6 7`. -/
theorem RoundTrip_attempts_counterexample :
    (∀ i, i < 6 → shouldRetry (sixTimes503 i sampleRequest) = true)
    ∧ shouldRetry (sixTimes503 6 sampleRequest) = false
    ∧ (sends (RoundTrip sixTimes503 sampleRequest).2).length = 7
    ∧ (RoundTrip sixTimes503 sampleRequest).1 = alwaysOK "ok" 6 sampleRequest
    ∧ (sends (RoundTrip sixTimes503 sampleRequest).2).length ≠ min 6 7 :=
  ⟨by decide, by rfl, by rfl, by rfl, by decide⟩

/-- C13: for every `n` from 0 to `RetryCount`, `backoff n` is `2 ^ n` seconds
(in nanoseconds); the effects of `RoundTrip` are the first call and then, for
each retry, the wait `backoff n` followed by the call, `n` counting the retries
from 0, so that the list of its waits is `backoff 0`, `backoff 1`, ... ; and
when every outcome is an error or a 502, 503 or 504 answer the waits are 1s, 2s,
4s, 8s, 16s and 32s. -/
theorem RoundTrip_waits (transport : Nat → Request → Exchange) (req : Request) :
    (∀ n, n ≤ RetryCount → backoff n = 2 ^ n * 1000000000)
    ∧ (∃ r, r ≤ RetryCount ∧ (RoundTrip transport req).2 = .send req :: retryEffects req r 0
        ∧ sleeps (RoundTrip transport req).2 = (List.range' 0 r).map backoff)
    ∧ ((∀ i, i ≤ RetryCount → shouldRetry (transport i req) = true) →
        sleeps (RoundTrip transport req).2
          = [1000000000, 2000000000, 4000000000, 8000000000, 16000000000, 32000000000]) := by
  refine ⟨?_, ?_, ?_⟩
  · intro n hn
    have h6 : n ≤ 6 := hn
    interval_cases n <;> rfl
  · by_cases hall : ∀ i, i ≤ RetryCount → shouldRetry (transport i req) = true
    · obtain ⟨h1, _⟩ := roundTripLoop_all transport req hall RetryCount 0 (Nat.zero_add _)
      refine ⟨RetryCount, Nat.le_refl _, ?_, ?_⟩
      · simp only [RoundTrip, h1]
      · simp only [RoundTrip, h1, sleeps, sleeps_retryEffects]
    · have hex : ∃ j, shouldRetry (transport j req) = false := by
        by_contra hne
        apply hall
        intro i _
        cases hs : shouldRetry (transport i req) with
        | true => rfl
        | false => exact absurd ⟨i, hs⟩ hne
      obtain ⟨hj, hmin⟩ := Nat.find_spec hex, fun i (hi : i < Nat.find hex) => Nat.find_min hex hi
      have hbefore : ∀ i, 0 ≤ i → i < Nat.find hex → shouldRetry (transport i req) = true := by
        intro i _ hi
        cases hs : shouldRetry (transport i req) with
        | true => rfl
        | false => exact absurd hs (hmin i hi)
      obtain ⟨_, h2, _⟩ := roundTripLoop_attempts transport req (Nat.find hex) hj RetryCount 0
        (Nat.zero_add _) (Nat.zero_le _) hbefore
      refine ⟨min RetryCount (Nat.find hex - 0), Nat.min_le_left _ _, ?_, ?_⟩
      · simp only [RoundTrip, h2]
      · simp only [RoundTrip, h2, sleeps, sleeps_retryEffects]
  · intro hall
    obtain ⟨h1, _⟩ := roundTripLoop_all transport req hall RetryCount 0 (Nat.zero_add _)
    simp only [RoundTrip, h1, sleeps, sleeps_retryEffects]
    rfl

/-- The waits of `RoundTrip` on a round-tripper that always answers 503. -/
theorem RoundTrip_waits_witness :
    backoff 3 = 2 ^ 3 * 1000000000
    ∧ sleeps (RoundTrip always503 sampleRequest).2
      = [1000000000, 2000000000, 4000000000, 8000000000, 16000000000, 32000000000] :=
  ⟨(RoundTrip_waits always503 sampleRequest).1 3 (by decide),
   (RoundTrip_waits always503 sampleRequest).2.2 (fun _ _ => by rfl)⟩

/-! ## The collection parser -/

theorem asRecords_map_obj (records : List JObj) :
    asRecords (records.map JVal.obj) = some records := by
  induction records with
  | nil => rfl
  | cons r rest ih => simp [asRecords, ih]

/-- The bodies on which the code appends as C15 says: when the decoded body
has a `data` member and either no `meta` member or a `meta` object without a
`paging` member, `parseResponseForGenerator` called with the accumulator `acc`
makes no further request and returns, with no error, `acc` followed by the
elements of `data` in array order when `data` is an array of objects, and `acc`
followed by `d` when `data` is an object `d`.  The other bodies without a paging
link (a `meta` that is no object, a `paging` member without a link) are looked
at after this. -/
theorem parseResponseForGenerator_appends (lib : Lib)
    (next : String → List JObj → World → Option GenOut) (basePath : String) (request : Request)
    (body : String) (data : JObj) (acc : List JObj) (w : World)
    (hdec : lib.unmarshal body = some data)
    (hnolink : data.lookup "meta" = none
      ∨ ∃ meta, data.lookup "meta" = some (.obj meta) ∧ meta.lookup "paging" = none) :
    (∀ records, data.lookup "data" = some (.arr (records.map JVal.obj)) →
        parseResponseForGenerator lib next basePath request body acc w
          = some (.ret (some (acc ++ records)) none, [], w))
    ∧ (∀ d, data.lookup "data" = some (.obj d) →
        parseResponseForGenerator lib next basePath request body acc w
          = some (.ret (some (acc ++ [d])) none, [], w)) := by
  constructor
  · intro records hdata
    rcases hnolink with hm | ⟨meta, hm, hp⟩
    · simp [parseResponseForGenerator, hdec, hdata, asRecords_map_obj, hm]
    · simp [parseResponseForGenerator, hdec, hdata, asRecords_map_obj, hm, hp]
  · intro d hdata
    rcases hnolink with hm | ⟨meta, hm, hp⟩
    · simp [parseResponseForGenerator, hdec, hdata, hm]
    · simp [parseResponseForGenerator, hdec, hdata, hm, hp]

/-- The last page of the sample collection, parsed with one record already
accumulated. -/
theorem parseResponseForGenerator_appends_witness :
    parseResponseForGenerator sampleLib recordNext "/SEMP/v2/config" sampleRequest pageTwoBody
        [[("id", .num 0)]] freshWorld
      = some (.ret (some ([[("id", .num 0)]] ++ [[("id", .num 3)]])) none, [], freshWorld) :=
  (parseResponseForGenerator_appends sampleLib recordNext "/SEMP/v2/config" sampleRequest
    pageTwoBody [("data", .arr [.obj [("id", .num 3)]])] [[("id", .num 0)]] freshWorld
    (by rfl) (Or.inl (by rfl))).1 [[("id", .num 3)]] (by rfl)

/-- C15 at the failing inputs: the body `{"data": [{"id": 3}], "meta": null}`
has a `data` array of one object and no paging link, and so has the body
`{"data": {"id": 3}, "meta": {"paging": null}}`, whose `data` is one object.
Called with the accumulator `[{"id": 0}]`, `parseResponseForGenerator` panics on
both: the key `meta` is present, and line 340 asserts
`metaData.(map[string]any)` in the single-value form; the key `paging` is
present, and line 342 does the same with `pageData`.  The branch of the same
function for a body without `data` reads `meta` with the two-value form (line
352) and returns on `{"meta": 5}`. -/
theorem parseResponseForGenerator_no_link_panics :
    lastLib.unmarshal metaNullBody
      = some [("data", .arr [.obj [("id", .num 3)]]), ("meta", .null)]
    ∧ parseResponseForGenerator lastLib recordNext "/SEMP/v2/config" sampleRequest metaNullBody
        [[("id", .num 0)]] freshWorld
      = some (.panic, [], freshWorld)
    ∧ lastLib.unmarshal pagingNullBody
      = some [("data", .obj [("id", .num 3)]), ("meta", .obj [("paging", .null)])]
    ∧ parseResponseForGenerator lastLib recordNext "/SEMP/v2/config" sampleRequest pagingNullBody
        [[("id", .num 0)]] freshWorld
      = some (.panic, [], freshWorld)
    ∧ parseResponseForGenerator lastLib recordNext "/SEMP/v2/config" sampleRequest metaNumberBody
        [[("id", .num 0)]] freshWorld
      = some (.ret (some [[]]) (some ErrResourceNotFound), [], freshWorld) :=
  ⟨by rfl, by rfl, by rfl, by rfl, by rfl⟩

/-- C16: when the decoded body has no `data` member and `meta` is an object,
`parseResponseForGenerator` returns the error `ErrBadRequest` when
`responseCode` is the number 400, and the error `ErrResourceNotFound` when
`responseCode` is another number and when it is missing; the `meta` object comes
back with the error.  The hypothesis on `fmtOther` is the fact that `fmt.Sprint`
prints the `float64` 400, and no other, as `400`. -/
theorem parseResponseForGenerator_meta_failure (lib : Lib)
    (next : String → List JObj → World → Option GenOut) (basePath : String) (request : Request)
    (body : String) (data meta : JObj) (acc : List JObj) (w : World)
    (hfmt : ∀ x, lib.fmtOther (.num x) = "400" ↔ x = 400)
    (hdec : lib.unmarshal body = some data) (hdata : data.lookup "data" = none)
    (hmeta : data.lookup "meta" = some (.obj meta)) :
    (meta.lookup "responseCode" = some (.num 400) →
        parseResponseForGenerator lib next basePath request body acc w
          = some (.ret (some [meta]) (some ErrBadRequest), [], w))
    ∧ (∀ x, x ≠ 400 → meta.lookup "responseCode" = some (.num x) →
        parseResponseForGenerator lib next basePath request body acc w
          = some (.ret (some [meta]) (some ErrResourceNotFound), [], w))
    ∧ (meta.lookup "responseCode" = none →
        parseResponseForGenerator lib next basePath request body acc w
          = some (.ret (some [meta]) (some ErrResourceNotFound), [], w)) := by
  refine ⟨?_, ?_, ?_⟩
  · intro hcode
    have h400 : lib.fmtOther (.num 400) = "400" := (hfmt 400).2 rfl
    simp [parseResponseForGenerator, hdec, hdata, hmeta, JVal.asMapOrNil, hcode, fmtSprint, h400]
  · intro x hx hcode
    have hne : lib.fmtOther (.num x) ≠ "400" := fun h => hx ((hfmt x).1 h)
    simp [parseResponseForGenerator, hdec, hdata, hmeta, JVal.asMapOrNil, hcode, fmtSprint, hne]
  · intro hcode
    simp [parseResponseForGenerator, hdec, hdata, hmeta, JVal.asMapOrNil, hcode]

theorem sampleFmtOther_400 (x : ℚ) : sampleFmtOther (.num x) = "400" ↔ x = 400 := by
  constructor
  · intro h
    by_contra hx
    simp only [sampleFmtOther, if_neg hx] at h
    split_ifs at h <;> exact absurd h (by decide)
  · intro h
    subst h
    rfl

/-- The bodies `{"meta": {"responseCode": 400}}` and
`{"meta": {"responseCode": 404}}`. -/
theorem parseResponseForGenerator_meta_failure_witness :
    parseResponseForGenerator sampleLib recordNext "/SEMP/v2/config" sampleRequest
        metaOnly400Body [] freshWorld
      = some (.ret (some [[("responseCode", .num 400)]]) (some ErrBadRequest), [], freshWorld)
    ∧ parseResponseForGenerator sampleLib recordNext "/SEMP/v2/config" sampleRequest
        metaOnly404Body [] freshWorld
      = some (.ret (some [[("responseCode", .num 404)]]) (some ErrResourceNotFound), [],
          freshWorld) :=
  ⟨(parseResponseForGenerator_meta_failure sampleLib recordNext "/SEMP/v2/config" sampleRequest
      metaOnly400Body [("meta", .obj [("responseCode", .num 400)])] [("responseCode", .num 400)]
      [] freshWorld sampleFmtOther_400 (by rfl) (by rfl) (by rfl)).1 (by rfl),
   (parseResponseForGenerator_meta_failure sampleLib recordNext "/SEMP/v2/config" sampleRequest
      metaOnly404Body [("meta", .obj [("responseCode", .num 404)])] [("responseCode", .num 404)]
      [] freshWorld sampleFmtOther_400 (by rfl) (by rfl) (by rfl)).2.1 404 (by norm_num)
      (by rfl)⟩

/-- C17 at the failing input: for the body `{"meta": {"responseCode": 200}}`
the function `parseResponseForGenerator` returns the error
`ErrResourceNotFound` (with the `meta` object), where `parseResponseAsObject`
returns a nil result and no error for the same body. -/
theorem parseResponseForGenerator_meta_200_not_found :
    parseResponseForGenerator sampleLib recordNext "/SEMP/v2/config" sampleRequest
        metaOnly200Body [] freshWorld
      = some (.ret (some [[("responseCode", .num 200)]]) (some ErrResourceNotFound), [],
          freshWorld)
    ∧ parseResponseAsObject sampleLib.unmarshal sampleRequest metaOnly200Body
      = .ret none none :=
  ⟨by rfl, by rfl⟩

/-- C18 at the failing input: for the body
`{"data": [{"id": 1}], "meta": {"paging": {}}}`, whose `paging` object has no
`nextPageUri`, the function `parseResponseForGenerator` prints the missing
member as `<nil>` and splits that text at the base path: with the base path
`/SEMP/v2/config` the index 1 is out of range and the function panics, and with
a base path that occurs in `<nil>`, such as `n`, it goes on to request the URL
`il>`. -/
theorem parseResponseForGenerator_paging_without_uri :
    parseResponseForGenerator sampleLib recordNext "/SEMP/v2/config" sampleRequest
        pagingWithoutUriBody [] freshWorld
      = some (.panic, [], freshWorld)
    ∧ parseResponseForGenerator sampleLib recordNext "n" sampleRequest
        pagingWithoutUriBody [] freshWorld
      = some (.ret (some [[("id", .num 1)]]) none,
          [.send { method := "GET", url := "il>", header := [] }], freshWorld) :=
  ⟨by rfl, by rfl⟩

/-! ## The pagination walker -/

/-- A non-empty `sep` that occurs in a text is found by `cutFirst`. -/
theorem cutFirst_of_infix (sep : List Char) (hsep : sep ≠ []) (text : List Char)
    (h : sep <:+: text) : ∃ before after, cutFirst sep text = some (before, after) := by
  induction text with
  | nil =>
    exact absurd (List.eq_nil_of_infix_nil h) hsep
  | cons ch rest ih =>
    by_cases hp : sep.isPrefixOf (ch :: rest) = true
    · exact ⟨[], (ch :: rest).drop sep.length, by simp [cutFirst, hp]⟩
    · have hrest : sep <:+: rest := by
        rcases List.infix_cons_iff.1 h with h1 | h1
        · exact absurd (List.isPrefixOf_iff_prefix.2 h1) hp
        · exact h1
      obtain ⟨before, after, hc⟩ := ih hrest
      exact ⟨ch :: before, after, by simp [cutFirst, hp, hc]⟩

/-- The function `splitChars` hands back at least one piece. -/
theorem splitChars_ne_nil (sep : List Char) (fuel : Nat) (text : List Char) :
    ∃ first rest, splitChars sep fuel text = first :: rest := by
  cases fuel with
  | zero => exact ⟨_, _, rfl⟩
  | succ fuel =>
    cases h : cutFirst sep text with
    | none => exact ⟨text, [], by simp [splitChars, h]⟩
    | some ba => exact ⟨ba.1, splitChars sep fuel ba.2, by simp [splitChars, h]⟩

/-- Splitting a text at a non-empty `sep` that occurs in it gives at least
two pieces, so that the index 1 is in range. -/
theorem stringsSplit_second (s sep : String) (hsep : sep ≠ "") (h : Contains s sep) :
    ∃ url, (stringsSplit s sep).get? 1 = some url := by
  have hd : sep.data ≠ [] := by
    intro hd
    apply hsep
    exact String.ext hd
  obtain ⟨before, after, hc⟩ := cutFirst_of_infix sep.data hd s.data h
  have hlen : ∃ m, s.data.length = m + 1 := by
    cases hs : s.data with
    | nil => rw [hs] at hc; simp [cutFirst] at hc
    | cons a l => exact ⟨l.length, rfl⟩
  obtain ⟨m, hm⟩ := hlen
  obtain ⟨first, rest, hr⟩ := splitChars_ne_nil sep.data m after
  exact ⟨String.mk first, by simp [stringsSplit, hsep, hm, splitChars, hc, hr]⟩

/-- The records of the pages 0 to `n`, page 0 apart. -/
theorem range_flatMap_succ {α : Type} (f : Nat → List α) (n : Nat) :
    (List.range (n + 1)).flatMap f = f 0 ++ (List.range n).flatMap (fun k => f (k + 1)) := by
  rw [List.range_succ_eq_map]
  simp [List.flatMap_cons, List.flatMap_map]
/-- With credentials and at least one attempt, a call of `doRequest` whose
first exchange answers 200 with a body read without error makes that one
exchange, waits at most on the pacing gate, and returns the body. -/
theorem doRequest_ok (base64 : String → String) (net : Nat → Request → Exchange)
    (c : Client) (request : Request) (w : World) (status body : String)
    (hcred : c.bearerToken ≠ "" ∨ c.username ≠ "")
    (hattempt : (c.retries + 1) % 2 ^ 64 ≠ 0)
    (hnet : ∀ r, net w.calls r
      = .answer { statusCode := 200, status := status, body := body, readErr := false }) :
    ∃ effects, doRequest base64 net c request w
        = (.ret (some body) none, effects, { firstRequest := false, calls := w.calls + 1 })
      ∧ (sends effects).length = 1 ∧ sleeps effects = [] := by
  obtain ⟨request2, hp⟩ := prepare_isSome base64 c request hcred
  obtain ⟨m, hm⟩ : ∃ m, (c.retries + 1) % 2 ^ 64 = m + 1 :=
    ⟨(c.retries + 1) % 2 ^ 64 - 1, by omega⟩
  rw [doRequest_prepared base64 net c request w request2 hp, hm,
    retryLoop_stop c net request2 m _ _ _ _ _ (hnet request2) (Or.inl rfl)]
  refine ⟨(if w.firstRequest then [] else [.gate]) ++ [.send request2], ?_, ?_, ?_⟩
  · simp [finish]
  · simp only [sends_append, sends_gate, List.nil_append, sends, List.length_cons,
      List.length_nil]
  · simp only [sleeps_append, sleeps_gate, List.nil_append, sleeps]

/-- A method and URL that the library accepts give a request. -/
theorem NewRequestWithContext_ok (rejects : String → String → Option String)
    (method url : String) (h : rejects method url = none) :
    ∃ rq, NewRequestWithContext rejects method url = .ok rq := by
  cases hr : NewRequestWithContext rejects method url with
  | ok rq => exact ⟨rq, rfl⟩
  | error e => simp [NewRequestWithContext, h] at hr

/-- The walks that go as C14 says, when the pages come in order whatever
address is asked for: a client with credentials and at least one attempt per
request, a non-empty base path, a method and URLs that
`http.NewRequestWithContext` accepts, and a chain of `n + 1` pages, the page `k`
being the answer to the exchange number `k` of the walk at every address, with
status 200 and a body read without error, whose `data` is an array of objects
`records k`; every page but the last holds under `meta.paging.nextPageUri` a
string that contains the base path, and the last page has no `paging` member (or
no `meta`).  Which address the walk asks for is left open here: it is the
subject of `stringsSplit` and of the examples at `cursorBroker`.  Then
`RequestWithoutBodyForGenerator` started with `acc`, with fuel for more than `n`
calls, returns `acc` followed by the records of the pages 0, 1, ..., `n` in
array order and no error, after exactly `n + 1` exchanges and no wait. -/
theorem RequestWithoutBodyForGenerator_pages (lib : Lib) (net : Nat → Request → Exchange)
    (c : Client) (basePath method : String)
    (hcred : c.bearerToken ≠ "" ∨ c.username ≠ "")
    (hattempt : (c.retries + 1) % 2 ^ 64 ≠ 0)
    (hbase : basePath ≠ "")
    (hbuild : ∀ u, lib.rejects method u = none)
    (n : Nat) (status body uri : Nat → String) (decoded : Nat → JObj)
    (records : Nat → List JObj) (url : String) (acc : List JObj) (w : World)
    (hserved : ∀ k, k ≤ n → ∀ r, net (w.calls + k) r
      = .answer { statusCode := 200, status := status k, body := body k, readErr := false })
    (hdecoded : ∀ k, k ≤ n → lib.unmarshal (body k) = some (decoded k))
    (hdata : ∀ k, k ≤ n → (decoded k).lookup "data" = some (.arr ((records k).map JVal.obj)))
    (hlink : ∀ k, k < n → ∃ meta paging, (decoded k).lookup "meta" = some (.obj meta)
      ∧ meta.lookup "paging" = some (.obj paging)
      ∧ paging.lookup "nextPageUri" = some (.str (uri k)) ∧ Contains (uri k) basePath)
    (hlast : (decoded n).lookup "meta" = none
      ∨ ∃ meta, (decoded n).lookup "meta" = some (.obj meta) ∧ meta.lookup "paging" = none)
    (fuel : Nat) (hfuel : n < fuel) :
    ∃ effects w2,
      RequestWithoutBodyForGenerator lib net c basePath method fuel url acc w
        = some (.ret (some (acc ++ (List.range (n + 1)).flatMap records)) none, effects, w2)
      ∧ (sends effects).length = n + 1 ∧ sleeps effects = []
      ∧ w2.calls = w.calls + (n + 1) := by
  induction n generalizing status body uri decoded records url acc w fuel with
  | zero =>
    obtain ⟨fuel, rfl⟩ : ∃ f, fuel = f + 1 := ⟨fuel - 1, by omega⟩
    obtain ⟨rq, hrq⟩ := NewRequestWithContext_ok lib.rejects method (c.url ++ url) (hbuild _)
    obtain ⟨effects, hdo, hs, hsl⟩ := doRequest_ok lib.base64 net c rq
      w (status 0) (body 0) hcred hattempt (fun r => hserved 0 (Nat.le_refl _) r)
    refine ⟨effects, { firstRequest := false, calls := w.calls + 1 }, ?_, hs, hsl, rfl⟩
    rcases hlast with hm | ⟨meta, hm, hp⟩
    · simp [RequestWithoutBodyForGenerator, hrq, hdo, parseResponseForGenerator,
        hdecoded 0 (Nat.le_refl _), hdata 0 (Nat.le_refl _), asRecords_map_obj, hm,
        range_flatMap_succ records 0]
    · simp [RequestWithoutBodyForGenerator, hrq, hdo, parseResponseForGenerator,
        hdecoded 0 (Nat.le_refl _), hdata 0 (Nat.le_refl _), asRecords_map_obj, hm, hp,
        range_flatMap_succ records 0]
  | succ n ih =>
    obtain ⟨fuel, rfl⟩ : ∃ f, fuel = f + 1 := ⟨fuel - 1, by omega⟩
    obtain ⟨rq, hrq⟩ := NewRequestWithContext_ok lib.rejects method (c.url ++ url) (hbuild _)
    obtain ⟨effects, hdo, hs, hsl⟩ := doRequest_ok lib.base64 net c rq
      w (status 0) (body 0) hcred hattempt (fun r => hserved 0 (Nat.zero_le _) r)
    obtain ⟨meta, paging, hmeta, hpaging, huri, hcontains⟩ := hlink 0 (Nat.succ_pos _)
    obtain ⟨url2, hurl2⟩ := stringsSplit_second (uri 0) basePath hbase hcontains
    rw [List.get?_eq_getElem?] at hurl2
    obtain ⟨effects2, w2, hrest, hs2, hsl2, hw2⟩ := ih (fun k => status (k + 1))
      (fun k => body (k + 1)) (fun k => uri (k + 1)) (fun k => decoded (k + 1))
      (fun k => records (k + 1)) url2 (acc ++ records 0)
      { firstRequest := false, calls := w.calls + 1 }
      (fun k hk r => by
        have := hserved (k + 1) (by omega) r
        rw [← this]; congr 1; simp only; omega)
      (fun k hk => hdecoded (k + 1) (by omega))
      (fun k hk => hdata (k + 1) (by omega))
      (fun k hk => hlink (k + 1) (by omega))
      hlast fuel (by omega)
    refine ⟨effects ++ effects2, w2, ?_, ?_, ?_, ?_⟩
    · simp [RequestWithoutBodyForGenerator, hrq, hdo,
        parseResponseForGenerator, hdecoded 0 (Nat.zero_le _), hdata 0 (Nat.zero_le _),
        asRecords_map_obj, hmeta, hpaging, huri, fmtSprint, hurl2, hrest,
        range_flatMap_succ records (n + 1)]
    · simp only [sends_append, List.length_append, hs, hs2]; omega
    · simp only [sleeps_append, hsl, hsl2, List.append_nil]
    · rw [hw2]; simp only; omega

/-- The two-page sample collection: records 1 and 2, then record 3. -/
theorem RequestWithoutBodyForGenerator_pages_witness :
    (∃ effects w2,
      RequestWithoutBodyForGenerator sampleLib twoPages configClient "/SEMP/v2/config" "GET" 2
          "/msgVpns" [] freshWorld
        = some (.ret (some ([] ++ (List.range (1 + 1)).flatMap
            (fun k => if k = 0 then [[("id", JVal.num 1)], [("id", JVal.num 2)]]
              else [[("id", JVal.num 3)]]))) none, effects, w2)
      ∧ (sends effects).length = 1 + 1 ∧ sleeps effects = []
      ∧ w2.calls = freshWorld.calls + (1 + 1))
    ∧ (RequestWithoutBodyForGenerator sampleLib twoPages configClient "/SEMP/v2/config" "GET" 2
          "/msgVpns" [] freshWorld).map (fun out => out.1)
        = some (.ret (some [[("id", .num 1)], [("id", .num 2)], [("id", .num 3)]]) none)
    ∧ (RequestWithoutBodyForGenerator sampleLib twoPages configClient "/SEMP/v2/config" "GET" 2
          "/msgVpns" [] freshWorld).map (fun out => (sends out.2.1).map Request.url)
        = some ["http://broker/SEMP/v2/config/msgVpns",
            "http://broker/SEMP/v2/config/msgVpns?cursor=p2"] :=
  ⟨RequestWithoutBodyForGenerator_pages sampleLib twoPages configClient "/SEMP/v2/config" "GET"
    (Or.inr (by decide)) (by decide) (by decide) (fun _ => rfl) 1
    (fun _ => "200 OK") (fun k => if k = 0 then pageOneBody else pageTwoBody)
    (fun _ => "http://broker/SEMP/v2/config/msgVpns?cursor=p2")
    (fun k => if k = 0 then
        [("data", .arr [.obj [("id", .num 1)], .obj [("id", .num 2)]]),
          ("meta", .obj [("paging", .obj [("nextPageUri",
            .str "http://broker/SEMP/v2/config/msgVpns?cursor=p2")])])]
      else [("data", .arr [.obj [("id", .num 3)]])])
    (fun k => if k = 0 then [[("id", JVal.num 1)], [("id", JVal.num 2)]]
      else [[("id", JVal.num 3)]])
    "/msgVpns" [] freshWorld
    (fun k hk r => by interval_cases k <;> rfl)
    (fun k hk => by interval_cases k <;> rfl)
    (fun k hk => by interval_cases k <;> rfl)
    (fun k hk => by
      interval_cases k
      exact ⟨_, _, rfl, rfl, rfl, "http://broker".data, "/msgVpns?cursor=p2".data, rfl⟩)
    (Or.inl rfl) 2 (by decide),
   by rfl, by rfl⟩

/-- The example of the specification read to the letter, with the numbers 1
and 2 as elements of `data`: they are no records, the assertion
`t.(map[string]any)` of line 331 panics, and the walk ends after one exchange
without a result. -/
theorem RequestWithoutBodyForGenerator_numbers_panic :
    numbersFirst 0 (sampleRequest.SetBasicAuth sampleBase64 "admin" "secret")
      = .answer { statusCode := 200, status := "200 OK", body := numbersPageBody,
                  readErr := false }
    ∧ sampleLib.unmarshal numbersPageBody
      = some [("data", .arr [.num 1, .num 2]),
          ("meta", .obj [("paging", .obj [("nextPageUri",
            .str "http://broker/SEMP/v2/config/msgVpns?cursor=p2")])])]
    ∧ RequestWithoutBodyForGenerator sampleLib numbersFirst configClient "/SEMP/v2/config" "GET"
        5 "/msgVpns" [] freshWorld
      = some (.panic,
          [.send { method := "GET", url := "http://broker/SEMP/v2/config/msgVpns",
                   header := [("Authorization", "Basic b64(admin:secret)")] }],
          { firstRequest := false, calls := 1 }) :=
  ⟨by rfl, by rfl, by rfl⟩

/-- C14 at the failing inputs, two collections of two pages of records served
by address, each page with status 200.

At `cursorBroker` the first page holds the record `{"id": 1}` and the link
`cursorLink`, which contains the base path `/SEMP/v2/config` (twice), and the
second page, served at the address the link names, holds the record `{"id": 3}`
and no `meta`.  The walk asks for the first page, then for the address cut at
the second occurrence of the base path, which is not the address of the second
page and is answered 404: it returns an error and no record, and the second
page is never asked for.

At `nullMetaBroker` the first page holds the records `{"id": 1}`, `{"id": 2}`
and a link in which the base path occurs once, and the second page, served at
the address the link names, holds the record `{"id": 3}` and `meta` as `null`,
so no paging link.  The walk asks for both pages and panics on the second. -/
theorem RequestWithoutBodyForGenerator_pages_lost :
    (∀ i method header,
        cursorBroker i { method := method, url := collectionUrl, header := header }
          = .answer { statusCode := 200, status := "200 OK", body := cursorPageBody,
                      readErr := false }
        ∧ cursorBroker i { method := method, url := cursorLink, header := header }
          = .answer { statusCode := 200, status := "200 OK", body := pageTwoBody,
                      readErr := false })
    ∧ lastLib.unmarshal cursorPageBody
      = some [("data", .arr [.obj [("id", .num 1)]]),
          ("meta", .obj [("paging", .obj [("nextPageUri", .str cursorLink)])])]
    ∧ lastLib.unmarshal pageTwoBody = some [("data", .arr [.obj [("id", .num 3)]])]
    ∧ Contains cursorLink "/SEMP/v2/config"
    ∧ RequestWithoutBodyForGenerator lastLib cursorBroker configClient "/SEMP/v2/config" "GET" 5
        "/msgVpns" [] freshWorld
      = some (.ret none (some (.errorf (unexpectedStatusMsg
            { method := "GET", url := "http://broker/SEMP/v2/config/msgVpns?cursor=",
              header := [("Authorization", "Basic b64(admin:secret)")] }
            { statusCode := 404, status := "404 Not Found", body := "gone",
              readErr := false }))),
          [.send { method := "GET", url := "http://broker/SEMP/v2/config/msgVpns",
                   header := [("Authorization", "Basic b64(admin:secret)")] },
           .gate,
           .send { method := "GET", url := "http://broker/SEMP/v2/config/msgVpns?cursor=",
                   header := [("Authorization", "Basic b64(admin:secret)")] }],
          { firstRequest := false, calls := 2 })
    ∧ (∀ i method header,
        nullMetaBroker i { method := method, url := collectionUrl, header := header }
          = .answer { statusCode := 200, status := "200 OK", body := pageOneBody,
                      readErr := false }
        ∧ nullMetaBroker i
            { method := method, url := "http://broker/SEMP/v2/config/msgVpns?cursor=p2",
              header := header }
          = .answer { statusCode := 200, status := "200 OK", body := metaNullBody,
                      readErr := false })
    ∧ RequestWithoutBodyForGenerator lastLib nullMetaBroker configClient "/SEMP/v2/config" "GET"
        5 "/msgVpns" [] freshWorld
      = some (.panic,
          [.send { method := "GET", url := "http://broker/SEMP/v2/config/msgVpns",
                   header := [("Authorization", "Basic b64(admin:secret)")] },
           .gate,
           .send { method := "GET", url := "http://broker/SEMP/v2/config/msgVpns?cursor=p2",
                   header := [("Authorization", "Basic b64(admin:secret)")] }],
          { firstRequest := false, calls := 2 }) :=
  ⟨fun _ _ _ => ⟨by rfl, by rfl⟩, by rfl, by rfl,
   ⟨"http://broker".data, "/msgVpns?cursor=/SEMP/v2/config/next".data, rfl⟩,
   by rfl, fun _ _ _ => ⟨by rfl, by rfl⟩, by rfl⟩

/-! ## The pacing gate -/

theorem gateWaits_append (xs ys : List Effect) :
    gateWaits (xs ++ ys) = gateWaits xs + gateWaits ys := by
  induction xs with
  | nil => simp [gateWaits]
  | cons e es ih =>
    cases e with
    | gate =>
      show gateWaits (es ++ ys) + 1 = gateWaits es + 1 + gateWaits ys
      omega
    | send r => exact ih
    | sleep d => exact ih

/-- The loop of `doRequest` does not receive from the pacing gate. -/
theorem retryLoop_gateWaits (c : Client) (net : Nat → Request → Exchange) (request : Request)
    (n : Nat) (retryWait : Int) (response : Option Response) (err : Option GoError) (calls : Nat) :
    gateWaits (retryLoop c net request n retryWait response err calls).2.1 = 0 := by
  induction n generalizing retryWait response err calls with
  | zero => simp [retryLoop, gateWaits]
  | succ n ih =>
    rcases retryLoop_cases net request calls with ⟨msg, h⟩ | ⟨r, h, hr⟩ | ⟨r, h, hr⟩
      | ⟨r, h, h1, h2, h3⟩
    · rw [retryLoop_fail c net request n retryWait response err calls msg h]
      simpa [gateWaits] using ih _ _ _ _
    · rw [retryLoop_429 c net request n retryWait response err calls r h hr]
      simpa [gateWaits] using ih _ _ _ _
    · rw [retryLoop_stop c net request n retryWait response err calls r h hr]
      simp [gateWaits]
    · rw [retryLoop_other c net request n retryWait response err calls r h h1 h2 h3]
      simp [gateWaits]

/-- The effects of a call of `doRequest`: the receive from the pacing gate
unless `firstRequest` is set, and after it effects without such a receive; the
call leaves `firstRequest` unset. -/
theorem doRequest_gate_shape (base64 : String → String) (net : Nat → Request → Exchange)
    (c : Client) (request : Request) (w : World) :
    (∃ rest, (doRequest base64 net c request w).2.1
        = (if w.firstRequest then [] else [.gate]) ++ rest ∧ gateWaits rest = 0)
    ∧ (doRequest base64 net c request w).2.2.firstRequest = false := by
  cases hp : prepare base64 c request with
  | none =>
    refine ⟨⟨[], ?_, rfl⟩, ?_⟩
    · simp [doRequest, hp]
    · simp [doRequest, hp]
  | some request2 =>
    rw [doRequest_prepared base64 net c request w request2 hp]
    exact ⟨⟨_, rfl, retryLoop_gateWaits c net request2 _ _ _ _ _⟩, rfl⟩

/-- C21 as the code has it: `firstRequest` is one variable of the process, not
of a `Client`.  A call of `doRequest`, by whichever `Client`, skips the receive
from its pacing gate exactly when no call of `doRequest` was made before in the
process; otherwise the receive is its first effect, before anything is sent;
every call leaves the variable unset, so that a call that follows another call,
be it by a `Client` built in between, starts with the receive. -/
theorem doRequest_gate (base64 : String → String) (net : Nat → Request → Exchange)
    (c : Client) (request : Request) (w : World) :
    (w.firstRequest = true → gateWaits (doRequest base64 net c request w).2.1 = 0)
    ∧ (w.firstRequest = false →
        ∃ rest, (doRequest base64 net c request w).2.1 = .gate :: rest ∧ gateWaits rest = 0)
    ∧ (doRequest base64 net c request w).2.2.firstRequest = false
    ∧ ∀ (net2 : Nat → Request → Exchange) (c2 : Client) (request2 : Request),
        ∃ rest, (doRequest base64 net2 c2 request2 (doRequest base64 net c request w).2.2).2.1
          = .gate :: rest ∧ gateWaits rest = 0 := by
  obtain ⟨⟨rest, hrest, hg⟩, hfirst⟩ := doRequest_gate_shape base64 net c request w
  refine ⟨?_, ?_, hfirst, ?_⟩
  · intro hw
    rw [hrest, hw]
    simpa using hg
  · intro hw
    refine ⟨rest, ?_, hg⟩
    rw [hrest, hw]
    rfl
  · intro net2 c2 request2
    obtain ⟨⟨rest2, hrest2, hg2⟩, _⟩ := doRequest_gate_shape base64 net2 c2 request2
      (doRequest base64 net c request w).2.2
    refine ⟨rest2, ?_, hg2⟩
    rw [hrest2, hfirst]
    rfl

/-- The first call of the process, by the first client, does not receive from
the gate; the call that follows it does. -/
theorem doRequest_gate_witness :
    gateWaits (doRequest sampleBase64 (alwaysOK "ok") firstClient.1 sampleRequest
      freshWorld).2.1 = 0
    ∧ ∃ rest, (doRequest sampleBase64 (alwaysOK "ok") firstClient.1 sampleRequest
          (doRequest sampleBase64 (alwaysOK "ok") firstClient.1 sampleRequest
            freshWorld).2.2).2.1 = .gate :: rest ∧ gateWaits rest = 0 :=
  ⟨(doRequest_gate sampleBase64 (alwaysOK "ok") firstClient.1 sampleRequest freshWorld).1 rfl,
   (doRequest_gate sampleBase64 (alwaysOK "ok") firstClient.1 sampleRequest
      (doRequest sampleBase64 (alwaysOK "ok") firstClient.1 sampleRequest freshWorld).2.2).2.1
      (by rfl)⟩

/-- C21 as stated fails: after the first client has made a request, a second
client is built with a minimum request interval of 1s, so that its gate is a
ticker; the first request of that fresh client starts with the receive from the
gate. -/
theorem doRequest_gate_counterexample :
    secondClient.1.rateLimiter = .ticker 1000000000
    ∧ (doRequest sampleBase64 (alwaysOK "ok") firstClient.1 sampleRequest freshWorld).2.1
      = [.send (sampleRequest.SetBasicAuth sampleBase64 "admin" "secret")]
    ∧ (doRequest sampleBase64 (alwaysOK "ok") secondClient.1 sampleRequest
        (doRequest sampleBase64 (alwaysOK "ok") firstClient.1 sampleRequest freshWorld).2.2).2.1
      = [.gate, .send (sampleRequest.SetBasicAuth sampleBase64 "admin" "secret")] :=
  ⟨by rfl, by rfl, by rfl⟩

/-! ## Construction of a client -/

/-- C23: `NewClient` without options gives a client with 3 retries, retry
waits from 1s to 10s, no credentials, a minimum request interval of 0 and a
closed channel as pacing gate, and sets the timeout of its HTTP client to 120s;
each of the four options, passed alone, replaces the fields it names and leaves
the other defaults (`RequestLimits` also decides the pacing gate: a ticker of
the interval when it is positive). -/
theorem NewClient_defaults (url : String) (insecure_skip_verify : Bool) (cookiejar : Option Nat)
    (d : HttpClient) :
    NewClient url insecure_skip_verify cookiejar [] d
      = ({ url := url, username := "", password := "", bearerToken := "", retries := 3,
           retryMinInterval := 1000000000, retryMaxInterval := 10000000000,
           requestMinInterval := 0, rateLimiter := .closed },
         { Transport := some (.retryable .defaultTransport), Jar := cookiejar,
           Timeout := 120000000000 })
    ∧ (∀ username password,
        NewClient url insecure_skip_verify cookiejar [BasicAuth username password] d
          = ({ url := url, username := username, password := password, bearerToken := "",
               retries := 3, retryMinInterval := 1000000000, retryMaxInterval := 10000000000,
               requestMinInterval := 0, rateLimiter := .closed },
             { Transport := some (.retryable .defaultTransport), Jar := cookiejar,
               Timeout := 120000000000 }))
    ∧ (∀ bearerToken,
        NewClient url insecure_skip_verify cookiejar [BearerToken bearerToken] d
          = ({ url := url, username := "", password := "", bearerToken := bearerToken,
               retries := 3, retryMinInterval := 1000000000, retryMaxInterval := 10000000000,
               requestMinInterval := 0, rateLimiter := .closed },
             { Transport := some (.retryable .defaultTransport), Jar := cookiejar,
               Timeout := 120000000000 }))
    ∧ (∀ numRetries retryMinInterval retryMaxInterval,
        NewClient url insecure_skip_verify cookiejar
            [Retries numRetries retryMinInterval retryMaxInterval] d
          = ({ url := url, username := "", password := "", bearerToken := "",
               retries := numRetries, retryMinInterval := retryMinInterval,
               retryMaxInterval := retryMaxInterval, requestMinInterval := 0,
               rateLimiter := .closed },
             { Transport := some (.retryable .defaultTransport), Jar := cookiejar,
               Timeout := 120000000000 }))
    ∧ (∀ requestTimeoutDuration requestMinInterval,
        NewClient url insecure_skip_verify cookiejar
            [RequestLimits requestTimeoutDuration requestMinInterval] d
          = ({ url := url, username := "", password := "", bearerToken := "", retries := 3,
               retryMinInterval := 1000000000, retryMaxInterval := 10000000000,
               requestMinInterval := requestMinInterval,
               rateLimiter := if requestMinInterval > 0 then .ticker requestMinInterval
                 else .closed },
             { Transport := some (.retryable .defaultTransport), Jar := cookiejar,
               Timeout := requestTimeoutDuration })) :=
  ⟨rfl, fun _ _ => rfl, fun _ => rfl, fun _ _ _ => rfl, fun _ _ => rfl⟩

/-- C30: the client that `NewClient` builds and the HTTP client it configures
are the same for `insecure_skip_verify = true` and for
`insecure_skip_verify = false`, whatever the URL, the cookie jar, the options
and the former state of the HTTP client. -/
theorem NewClient_ignores_skip_verify (url : String) (cookiejar : Option Nat)
    (options : List ClientOption) (d : HttpClient) :
    NewClient url true cookiejar options d = NewClient url false cookiejar options d :=
  rfl

/-- C26 as the code has it: every `Client` holds the pointer
`http.DefaultClient`, and `NewClient` writes to that one HTTP client.  After a
later call of `NewClient`, the HTTP client of a `Client` `a` built before is
the one of the new `Client`: its cookie jar is the jar given to the later call,
its timeout is 120s, or the timeout of a `RequestLimits` option of the later
call, and its transport is again a `retryableTransport` around
`http.DefaultTransport`, whatever they were before. -/
theorem NewClient_shared_http_client (a : Client) (url : String) (insecure_skip_verify : Bool)
    (cookiejar : Option Nat) (d : HttpClient) :
    (a.httpClient (NewClient url insecure_skip_verify cookiejar [] d).2
        = (NewClient url insecure_skip_verify cookiejar [] d).1.httpClient
            (NewClient url insecure_skip_verify cookiejar [] d).2
      ∧ a.httpClient (NewClient url insecure_skip_verify cookiejar [] d).2
        = { Transport := some (.retryable .defaultTransport), Jar := cookiejar,
            Timeout := 120000000000 })
    ∧ ∀ requestTimeoutDuration requestMinInterval,
        a.httpClient (NewClient url insecure_skip_verify cookiejar
            [RequestLimits requestTimeoutDuration requestMinInterval] d).2
          = { Transport := some (.retryable .defaultTransport), Jar := cookiejar,
              Timeout := requestTimeoutDuration } :=
  ⟨⟨rfl, rfl⟩, fun _ _ => rfl⟩

/-- C26 as stated fails: the first client is built with the cookie jar 1 and
has a timeout of 120s; once the second client has been built with the cookie
jar 2 and a `RequestLimits` option of 5s, the HTTP client of the first client
holds the cookie jar 2 and the timeout of 5s. -/
theorem NewClient_shared_http_client_counterexample :
    (firstClient.1.httpClient firstClient.2).Jar = some 1
    ∧ (firstClient.1.httpClient firstClient.2).Timeout = 120000000000
    ∧ (firstClient.1.httpClient secondClient.2).Jar = some 2
    ∧ (firstClient.1.httpClient secondClient.2).Timeout = 5000000000
    ∧ firstClient.1.httpClient secondClient.2 ≠ firstClient.1.httpClient firstClient.2 :=
  ⟨by rfl, by rfl, by rfl, by rfl, by decide⟩

/-! ## Requests with a body -/

/-- The method `Header.Set` leaves the values under the other names. -/
theorem headerValues_setHeader_ne (r : Request) (key value other : String) (h : other ≠ key) :
    (r.setHeader key value).headerValues other = r.headerValues other := by
  have h2 : ∀ kv : String × String, kv.1 = other → kv.1 ≠ key := fun kv hk => hk ▸ h
  simp only [Request.setHeader, Request.headerValues, List.filter_cons, h.symm, decide_False,
    Bool.false_eq_true, if_false, List.filter_filter]
  congr 1
  apply List.filter_congr
  intro kv _
  by_cases hk : kv.1 = other
  · simp [hk, h]
  · simp [hk]

/-- The header `Content-Type` of the request that `prepare` hands on, when the
request came with an empty header: `application/json` unless the method is
`GET`. -/
theorem prepare_content_type (base64 : String → String) (c : Client) (request request2 : Request)
    (hheader : request.header = [])
    (hp : prepare base64 c request = some request2) :
    request2.headerValues "Content-Type"
      = if request.method = "GET" then [] else ["application/json"] := by
  have hne : ("Content-Type" : String) ≠ "Authorization" := by decide
  have hstart : request.headerValues "Content-Type" = [] := by
    simp [Request.headerValues, hheader]
  have hfirst : (if request.method ≠ "GET" then
        request.setHeader "Content-Type" "application/json" else request).headerValues
        "Content-Type" = if request.method = "GET" then [] else ["application/json"] := by
    by_cases hg : request.method = "GET"
    · simp only [hg, ne_eq, not_true_eq_false, if_false, if_true]
      exact hstart
    · simp only [hg, ne_eq, not_false_eq_true, if_true, if_false]
      exact headerValues_setHeader _ _ _
  unfold prepare at hp
  simp only [Request.SetBasicAuth] at hp
  by_cases h1 : c.bearerToken = ""
  · by_cases h2 : c.username = ""
    · simp [h1, h2] at hp
    · simp only [h1, h2, ne_eq, not_true_eq_false, not_false_eq_true, if_true, if_false,
        Option.some.injEq] at hp
      rw [← hp, headerValues_setHeader_ne _ _ _ _ hne]
      exact hfirst
  · simp only [h1, ne_eq, not_false_eq_true, if_true, Option.some.injEq] at hp
    rw [← hp, headerValues_setHeader_ne _ _ _ _ hne]
    exact hfirst

/-- The requests that `RequestWithBody` sends are the prepared form of the
request that `http.NewRequestWithContext` built. -/
theorem RequestWithBody_sends_mem (lib : Lib) (net : Nat → Request → Exchange) (c : Client)
    (method url data : String) (w : World) :
    ∀ r ∈ sends (RequestWithBody lib net c method url (.ok data) w).2.1,
      prepare lib.base64 c
        { method := if method = "" then "GET" else method, url := c.url ++ url, header := [] }
        = some r := by
  intro r hr
  unfold RequestWithBody at hr
  simp only [NewRequestWithContext] at hr
  cases hrej : lib.rejects method (c.url ++ url) with
  | some msg => simp [hrej, sends] at hr
  | none =>
    simp only [hrej] at hr
    apply doRequest_sends_mem lib.base64 net c _ w r
    split at hr <;> exact hr

/-- C22 as the code has it: every request that `RequestWithBody` sends holds
under `Content-Type` the single value `application/json` when the method is
neither `GET` nor empty (an empty method stands for `GET`), and no value under
`Content-Type` when it is. -/
theorem RequestWithBody_content_type (lib : Lib) (net : Nat → Request → Exchange) (c : Client)
    (method url data : String) (w : World) :
    ∀ r ∈ sends (RequestWithBody lib net c method url (.ok data) w).2.1,
      r.headerValues "Content-Type"
        = if method = "GET" ∨ method = "" then [] else ["application/json"] := by
  intro r hr
  have hp := RequestWithBody_sends_mem lib net c method url data w r hr
  rw [prepare_content_type lib.base64 c _ r rfl hp]
  by_cases h1 : method = ""
  · simp [h1]
  · by_cases h2 : method = "GET"
    · simp [h2]
    · simp [h1, h2]

/-- A `POST` with a body is sent with `Content-Type: application/json`. -/
theorem RequestWithBody_content_type_witness :
    sends (RequestWithBody sampleLib (alwaysOK pageTwoBody) sampleClient "POST" "/msgVpns"
        (.ok "body") freshWorld).2.1
      = [{ method := "POST", url := "http://broker/msgVpns",
           header := [("Authorization", "Basic b64(admin:secret)"),
             ("Content-Type", "application/json")] }]
    ∧ ∀ r ∈ sends (RequestWithBody sampleLib (alwaysOK pageTwoBody) sampleClient "POST"
          "/msgVpns" (.ok "body") freshWorld).2.1,
        r.headerValues "Content-Type"
          = if "POST" = "GET" ∨ "POST" = "" then [] else ["application/json"] :=
  ⟨by rfl, RequestWithBody_content_type sampleLib (alwaysOK pageTwoBody) sampleClient "POST"
    "/msgVpns" "body" freshWorld⟩

/-- C22 as stated fails for `GET`: a `GET` sent with a body through
`RequestWithBody` reaches the transport with the `Authorization` header only,
and with no value under `Content-Type`. -/
theorem RequestWithBody_content_type_counterexample :
    sends (RequestWithBody sampleLib (alwaysOK pageTwoBody) sampleClient "GET" "/msgVpns"
        (.ok "body") freshWorld).2.1
      = [{ method := "GET", url := "http://broker/msgVpns",
           header := [("Authorization", "Basic b64(admin:secret)")] }]
    ∧ ¬ ∀ r ∈ sends (RequestWithBody sampleLib (alwaysOK pageTwoBody) sampleClient "GET"
          "/msgVpns" (.ok "body") freshWorld).2.1,
        r.headerValues "Content-Type" = ["application/json"] := by
  refine ⟨by rfl, ?_⟩
  intro h
  have hs : sends (RequestWithBody sampleLib (alwaysOK pageTwoBody) sampleClient "GET"
      "/msgVpns" (.ok "body") freshWorld).2.1
      = [⟨"GET", "http://broker/msgVpns", [("Authorization", "Basic b64(admin:secret)")]⟩] := by
    rfl
  rw [hs] at h
  exact absurd (h _ (List.mem_singleton.2 rfl)) (by decide)

/-! ## The number of waits -/

/-- Counting over `0, ..., n` is counting at 0 and over `1, ..., n`. -/
theorem countP_range_succ (p : Nat → Bool) (n : Nat) :
    (List.range (n + 1)).countP p
      = (if p 0 then 1 else 0) + (List.range n).countP (fun k => p (k + 1)) := by
  rw [List.range_succ_eq_map, List.countP_cons, List.countP_map]
  have : (p ∘ Nat.succ) = fun k => p (k + 1) := rfl
  rw [this]
  omega

/-- The loop waits once for every exchange that failed or answered 429, and
for no other. -/
theorem retryLoop_sleeps_count (c : Client) (net : Nat → Request → Exchange) (request : Request)
    (n : Nat) (retryWait : Int) (response : Option Response) (err : Option GoError) (calls : Nat) :
    (sleeps (retryLoop c net request n retryWait response err calls).2.1).length
      = (List.range (sends (retryLoop c net request n retryWait response err calls).2.1).length).countP
          (fun k => isRetried (net (calls + k) request)) := by
  induction n generalizing retryWait response err calls with
  | zero => simp [retryLoop, sends, sleeps]
  | succ n ih =>
    have hfun : (fun k => isRetried (net (calls + (k + 1)) request))
        = fun k => isRetried (net (calls + 1 + k) request) := by
      funext k
      rw [show calls + (k + 1) = calls + 1 + k by omega]
    rcases retryLoop_cases net request calls with ⟨msg, h⟩ | ⟨r, h, hr⟩ | ⟨r, h, hr⟩
      | ⟨r, h, h1, h2, h3⟩
    · rw [retryLoop_fail c net request n retryWait response err calls msg h]
      simp only [sends, sleeps, List.length_cons]
      rw [countP_range_succ, hfun, ih]
      simp only [Nat.add_zero, h, isRetried, if_true]
      omega
    · rw [retryLoop_429 c net request n retryWait response err calls r h hr]
      simp only [sends, sleeps, List.length_cons]
      rw [countP_range_succ, hfun, ih]
      simp only [Nat.add_zero, h, isRetried, hr, decide_True, if_true]
      omega
    · rw [retryLoop_stop c net request n retryWait response err calls r h hr]
      rcases hr with hr | hr <;>
        simp [sends, sleeps, countP_range_succ, h, isRetried, hr]
    · rw [retryLoop_other c net request n retryWait response err calls r h h1 h2 h3]
      simp [sends, sleeps, countP_range_succ, h, isRetried, h3]

/-- When every exchange fails or answers 429, the last effects of the loop
started with `n + 1` attempts are the last exchange and the wait after it. -/
theorem retryLoop_exhausted_tail (c : Client) (net : Nat → Request → Exchange)
    (request : Request)
    (hretry : ∀ i, (∃ msg, net i request = .fail msg)
      ∨ ∃ resp, net i request = .answer resp ∧ resp.statusCode = 429)
    (n : Nat) (retryWait : Int) (response : Option Response) (err : Option GoError) (calls : Nat) :
    ∃ before d, (retryLoop c net request (n + 1) retryWait response err calls).2.1
      = before ++ [.send request, .sleep d] := by
  induction n generalizing retryWait response err calls with
  | zero =>
    rcases hretry calls with ⟨msg, h⟩ | ⟨r, h, hr⟩
    · rw [retryLoop_fail c net request 0 retryWait response err calls msg h]
      exact ⟨[], retryWait, rfl⟩
    · rw [retryLoop_429 c net request 0 retryWait response err calls r h hr]
      exact ⟨[], retryWait, rfl⟩
  | succ n ih =>
    rcases hretry calls with ⟨msg, h⟩ | ⟨r, h, hr⟩
    · rw [retryLoop_fail c net request (n + 1) retryWait response err calls msg h]
      obtain ⟨before, d, hb⟩ := ih (nextRetryWait c retryWait) none (some (.external msg))
        (calls + 1)
      exact ⟨.send request :: .sleep retryWait :: before, d, by simp only [hb, List.cons_append]⟩
    · rw [retryLoop_429 c net request (n + 1) retryWait response err calls r h hr]
      obtain ⟨before, d, hb⟩ := ih (nextRetryWait c retryWait) (some r.afterReadAll) none
        (calls + 1)
      exact ⟨.send request :: .sleep retryWait :: before, d, by simp only [hb, List.cons_append]⟩

/-- C29: with credentials, the number of waits of a call of `doRequest` is the
number of its exchanges that failed or answered 429; and when every exchange
answers 429 and the call makes `retries + 1` exchanges, it waits `retries + 1`
times, its last two effects are the last exchange and a wait, and it returns an
error. -/
theorem doRequest_waits_count (base64 : String → String) (net : Nat → Request → Exchange)
    (c : Client) (request : Request) (w : World) (request2 : Request)
    (hp : prepare base64 c request = some request2) :
    (sleeps (doRequest base64 net c request w).2.1).length
      = (List.range (sends (doRequest base64 net c request w).2.1).length).countP
          (fun k => isRetried (net (w.calls + k) request2))
    ∧ ((∀ i, ∃ resp, net i request2 = .answer resp ∧ resp.statusCode = 429) →
        (sends (doRequest base64 net c request w).2.1).length = c.retries + 1 →
        (sleeps (doRequest base64 net c request w).2.1).length = c.retries + 1
        ∧ (∃ before d, (doRequest base64 net c request w).2.1
            = before ++ [.send request2, .sleep d])
        ∧ ∃ err, (doRequest base64 net c request w).1 = .ret none (some err)) := by
  constructor
  · rw [doRequest_prepared base64 net c request w request2 hp]
    simp only [sends_append, sends_gate, sleeps_append, sleeps_gate, List.nil_append]
    exact retryLoop_sleeps_count c net request2 _ _ _ _ _
  · intro h429 hsent
    have hn : (c.retries + 1) % 2 ^ 64 = c.retries + 1 := by
      rw [doRequest_prepared base64 net c request w request2 hp] at hsent
      simp only [sends_append, sends_gate, List.nil_append] at hsent
      rw [(retryLoop_all_429 c net request2 h429 _ _ _ _ _).1] at hsent
      exact hsent
    have hlt : c.retries + 1 < 2 ^ 64 := by
      rw [← hn]
      exact Nat.mod_lt _ (by norm_num)
    obtain ⟨_, h2, _, h4⟩ := doRequest_exhausted base64 net c request w request2 hp hlt
      (fun i => Or.inr (h429 i))
    obtain ⟨resp, hr, _⟩ := h429 (w.calls + c.retries)
    refine ⟨h2, ?_, _, h4 resp hr⟩
    rw [doRequest_prepared base64 net c request w request2 hp, hn]
    obtain ⟨before, d, hb⟩ := retryLoop_exhausted_tail c net request2
      (fun i => Or.inr (h429 i)) c.retries c.retryMinInterval none none w.calls
    exact ⟨(if w.firstRequest then [] else [.gate]) ++ before, d, by
      simp only [hb, List.append_assoc]⟩

/-- The sample client (3 retries) on a network that always answers 429 makes 4
exchanges and 4 waits, the last effect being the wait of 8s. -/
theorem doRequest_waits_count_witness :
    (doRequest sampleBase64 always429 sampleClient sampleRequest freshWorld).2.1
      = [.send (sampleRequest.SetBasicAuth sampleBase64 "admin" "secret"), .sleep 1000000000,
         .send (sampleRequest.SetBasicAuth sampleBase64 "admin" "secret"), .sleep 2000000000,
         .send (sampleRequest.SetBasicAuth sampleBase64 "admin" "secret"), .sleep 4000000000,
         .send (sampleRequest.SetBasicAuth sampleBase64 "admin" "secret"), .sleep 8000000000]
    ∧ (sleeps (doRequest sampleBase64 always429 sampleClient sampleRequest
          freshWorld).2.1).length = sampleClient.retries + 1
      ∧ (∃ before d, (doRequest sampleBase64 always429 sampleClient sampleRequest
            freshWorld).2.1
          = before ++ [.send (sampleRequest.SetBasicAuth sampleBase64 "admin" "secret"),
              .sleep d])
      ∧ ∃ err, (doRequest sampleBase64 always429 sampleClient sampleRequest freshWorld).1
          = .ret none (some err) :=
  ⟨by rfl,
   (doRequest_waits_count sampleBase64 always429 sampleClient sampleRequest freshWorld
      (sampleRequest.SetBasicAuth sampleBase64 "admin" "secret") (by rfl)).2
      (fun _ => ⟨_, rfl, rfl⟩) (by rfl)⟩

/-! ## Bodies outside the envelope -/

/-- C24 at the failing inputs: for a body whose `meta` is not an object
(`{"meta": 5}`), for one whose `meta` has no `responseCode` (`{"meta": {}}`) and
for one whose `meta` has the response code 404 and no `error` member
(`{"meta": {"responseCode": 404}}`), a single-value type assertion of lines
300-305 fails and `parseResponseAsObject` panics instead of returning an
error. -/
theorem parseResponseAsObject_panics :
    parseResponseAsObject sampleUnmarshalMore sampleRequest metaNumberBody = .panic
    ∧ parseResponseAsObject sampleUnmarshalMore sampleRequest metaEmptyBody = .panic
    ∧ parseResponseAsObject sampleUnmarshalMore sampleRequest metaOnly404Body = .panic :=
  ⟨by rfl, by rfl, by rfl⟩

/-- C27: when the decoded body has a `data` member that is not an object,
`parseResponseAsObject` returns a nil mapping and no error, whatever else the
body holds; this is the result it returns for a body without `data` whose `meta`
reports the response code 200. -/
theorem parseResponseAsObject_data_not_object (unmarshal : String → Option JObj)
    (request : Request) (body : String) (data : JObj) (v : JVal)
    (hdec : unmarshal body = some data) (hdata : data.lookup "data" = some v)
    (hv : ∀ d, v ≠ .obj d) :
    parseResponseAsObject unmarshal request body = .ret none none
    ∧ ∀ body2 data2 meta2, unmarshal body2 = some data2 → data2.lookup "data" = none →
        data2.lookup "meta" = some (.obj meta2) →
        meta2.lookup "responseCode" = some (.num 200) →
        parseResponseAsObject unmarshal request body
          = parseResponseAsObject unmarshal request body2 := by
  have h1 : parseResponseAsObject unmarshal request body = .ret none none := by
    cases v with
    | obj d => exact absurd rfl (hv d)
    | null => simp [parseResponseAsObject, hdec, hdata]
    | bool b => simp [parseResponseAsObject, hdec, hdata]
    | num x => simp [parseResponseAsObject, hdec, hdata]
    | str x => simp [parseResponseAsObject, hdec, hdata]
    | arr xs => simp [parseResponseAsObject, hdec, hdata]
  refine ⟨h1, ?_⟩
  intro body2 data2 meta2 hdec2 hdata2 hmeta2 hcode2
  rw [h1]
  simp [parseResponseAsObject, hdec2, hdata2, hmeta2, JVal.asMapOrNil, hcode2]

/-- A body whose `data` is the array `[1]` and whose `meta` describes a failed
request gives a nil mapping and no error, as the body
`{"meta": {"responseCode": 200}}` does. -/
theorem parseResponseAsObject_data_not_object_witness :
    parseResponseAsObject sampleUnmarshalMore sampleRequest dataArrayErrorBody = .ret none none
    ∧ parseResponseAsObject sampleUnmarshalMore sampleRequest dataArrayErrorBody
      = parseResponseAsObject sampleUnmarshalMore sampleRequest metaOnly200Body :=
  ⟨(parseResponseAsObject_data_not_object sampleUnmarshalMore sampleRequest dataArrayErrorBody
      [("data", .arr [.num 1]),
        ("meta", .obj [("responseCode", .num 400),
          ("error", .obj [("description", .str "bad"), ("status", .str "INVALID")])])]
      (.arr [.num 1]) (by rfl) (by rfl) (fun _ h => by cases h)).1,
   (parseResponseAsObject_data_not_object sampleUnmarshalMore sampleRequest dataArrayErrorBody
      [("data", .arr [.num 1]),
        ("meta", .obj [("responseCode", .num 400),
          ("error", .obj [("description", .str "bad"), ("status", .str "INVALID")])])]
      (.arr [.num 1]) (by rfl) (by rfl) (fun _ h => by cases h)).2 metaOnly200Body
      [("meta", .obj [("responseCode", .num 200)])] [("responseCode", .num 200)]
      (by rfl) (by rfl) (by rfl) (by rfl)⟩

/-- C28: when the decoded body has neither a `data` nor a `meta` member,
`parseResponseForGenerator` makes no further request and returns a nil result
and no error, whatever the accumulator holds. -/
theorem parseResponseForGenerator_neither (lib : Lib)
    (next : String → List JObj → World → Option GenOut) (basePath : String) (request : Request)
    (body : String) (data : JObj) (acc : List JObj) (w : World)
    (hdec : lib.unmarshal body = some data) (hdata : data.lookup "data" = none)
    (hmeta : data.lookup "meta" = none) :
    parseResponseForGenerator lib next basePath request body acc w
      = some (.ret none none, [], w) := by
  simp [parseResponseForGenerator, hdec, hdata, hmeta]

/-- The body `{}`, parsed with two records already accumulated. -/
theorem parseResponseForGenerator_neither_witness :
    parseResponseForGenerator moreLib recordNext "/SEMP/v2/config" sampleRequest "\x7b\x7d"
        [[("id", .num 1)], [("id", .num 2)]] freshWorld
      = some (.ret none none, [], freshWorld) :=
  parseResponseForGenerator_neither moreLib recordNext "/SEMP/v2/config" sampleRequest
    "\x7b\x7d" [] [[("id", .num 1)], [("id", .num 2)]] freshWorld (by rfl) (by rfl) (by rfl)

/-! ## The continuation path -/

/-- C25 at the failing inputs: the link
`http://broker/SEMP/v2/config/msgVpns?cursor=/SEMP/v2/config/next` holds the base
path `/SEMP/v2/config` twice; what follows its first occurrence is
`/msgVpns?cursor=/SEMP/v2/config/next`, but the element 1 of `strings.Split` is
the piece between the first and the second occurrence, and the next request
goes to the base URL followed by `/msgVpns?cursor=`.  With the empty base path,
which every link contains, the element 1 is the second character of the link,
`t`. -/
theorem next_page_path_cut_short :
    Contains "http://broker/SEMP/v2/config/msgVpns?cursor=/SEMP/v2/config/next"
      "/SEMP/v2/config"
    ∧ stringsSplit "http://broker/SEMP/v2/config/msgVpns?cursor=/SEMP/v2/config/next"
        "/SEMP/v2/config" = ["http://broker", "/msgVpns?cursor=", "/next"]
    ∧ (RequestWithoutBodyForGenerator moreLib cursorFirst configClient "/SEMP/v2/config" "GET" 5
          "/msgVpns" [] freshWorld).map (fun out => (sends out.2.1).map Request.url)
        = some ["http://broker/SEMP/v2/config/msgVpns",
            "http://broker/SEMP/v2/config/msgVpns?cursor="]
    ∧ (RequestWithoutBodyForGenerator moreLib cursorFirst configClient "" "GET" 5
          "/msgVpns" [] freshWorld).map (fun out => (sends out.2.1).map Request.url)
        = some ["http://broker/SEMP/v2/config/msgVpns", "http://broker/SEMP/v2/configt"] :=
  ⟨⟨"http://broker".data, "/msgVpns?cursor=/SEMP/v2/config/next".data, rfl⟩,
   by rfl, by rfl, by rfl⟩

end Semp
